import Mathlib

/-!
Shallow embedding of the core of the `mcp-accessibility-evaluator` repository:
the WCAG compliance checker (`wcag-compliance-checker.ts`, class
`WCAGComplianceChecker`), the rule-based accessibility evaluator
(`accessibility-evaluator.ts`, class `AccessibilityEvaluator`) and the ARIA
validator (`aria-validator.ts`, class `ARIAValidator`), together with theorems
about the properties claimed for them.

Conventions of the embedding:
* JavaScript strings are Lean `String`s; the JS-specific operations used by the
  source (`includes`, `replace` with a string pattern, `indexOf` returning -1,
  lexicographic `>=`, `\s+` regexp replacement, truthiness of strings) are
  modelled explicitly below.
* JS `Map`/`Set` (used only with insertion-order iteration and key lookup) are
  modelled as association lists / lists with order-preserving insertion.
* `Math.round((p / t) * 100)` for natural numbers `p ≤ t` is modelled as the
  exact half-up rounding `(200 * p + t) / (2 * t)` in natural-number
  arithmetic. For every `p ≤ t ≤ 15` (the criteria catalog has 15 entries, so
  these are all reachable counts) the IEEE-754 double computation of the
  source agrees with the exact rational rounding, so the model is faithful on
  the reachable range.
* Thrown JS errors are modelled with `Except String`.
-/

/-! ## JavaScript string semantics helpers -/

/-- Substring test on character lists: does `pat` occur contiguously? -/
def charsInfixOf (pat : List Char) : List Char → Bool
  | [] => pat.isEmpty
  | c :: cs => pat.isPrefixOf (c :: cs) || charsInfixOf pat cs

/-- JS `a.includes(b)`: `b` occurs as a contiguous substring of `a`. -/
def jsIncludes (a b : String) : Bool :=
  charsInfixOf b.data a.data

/-- Replace the first occurrence of `pat` by `repl` in a character list; if
`pat` does not occur the list is unchanged (JS `String.prototype.replace` with
a string pattern). -/
def replaceFirstChars (pat repl : List Char) : List Char → List Char
  | [] => if pat.isPrefixOf ([] : List Char) then repl else []
  | c :: cs =>
    if pat.isPrefixOf (c :: cs) then repl ++ (c :: cs).drop pat.length
    else c :: replaceFirstChars pat repl cs

/-- JS `s.replace(pat, repl)` for a plain string pattern. -/
def jsReplaceFirst (s pat repl : String) : String :=
  String.mk (replaceFirstChars pat.data repl.data s.data)

/-- JS lexicographic `<` on strings, by code units. -/
def jsLtChars : List Char → List Char → Bool
  | [], [] => false
  | [], _ :: _ => true
  | _ :: _, [] => false
  | a :: as, b :: bs =>
    if a < b then true
    else if b < a then false
    else jsLtChars as bs

/-- JS `s >= t` on strings. -/
def jsGeStr (s t : String) : Bool :=
  ! jsLtChars s.data t.data

/-- JS `array.indexOf(x)` on a string array: index of the first occurrence, or
`-1` when absent. -/
def jsIndexOf (l : List String) (x : String) : Int :=
  match l with
  | [] => -1
  | y :: ys =>
    if y = x then 0
    else
      let r := jsIndexOf ys x
      if r = -1 then -1 else r + 1

/-- Worker for `wsRunsToDash`, tracking whether the previous character was
whitespace (so that a maximal run contributes a single dash). -/
def wsRunsToDashAux (prevWs : Bool) : List Char → List Char
  | [] => []
  | c :: cs =>
    if c.isWhitespace then
      (if prevWs then [] else ['-']) ++ wsRunsToDashAux true cs
    else c :: wsRunsToDashAux false cs

/-- JS `s.replace(/\s+/g, '-')`: every maximal run of whitespace becomes a
single `'-'`. -/
def wsRunsToDash (l : List Char) : List Char :=
  wsRunsToDashAux false l

/-- JS `s.startsWith(pre)`. -/
def jsStartsWith (s pre : String) : Bool :=
  pre.data.isPrefixOf s.data

/-- Worker for `jsSplitSpace`: split at every single space character. -/
def splitSpaceAux (cur : List Char) : List Char → List (List Char)
  | [] => [cur.reverse]
  | c :: cs =>
    if c = ' ' then cur.reverse :: splitSpaceAux [] cs
    else splitSpaceAux (c :: cur) cs

/-- JS `s.split(' ')`: split at every single space (consecutive spaces yield
empty fragments, and the result is never empty). -/
def jsSplitSpace (s : String) : List String :=
  (splitSpaceAux [] s.data).map String.mk

/-- JS `s.toLowerCase()`, character by character (ASCII case mapping, which
agrees with JS on all strings appearing in the catalogs). -/
def jsToLowerCase (s : String) : String :=
  String.mk (s.data.map Char.toLower)

/-- JS `s.trim()`. -/
def jsTrim (s : String) : String :=
  String.mk (((s.data.dropWhile Char.isWhitespace).reverse.dropWhile
    Char.isWhitespace).reverse)

/-- JS `s.substring(0, n)`. -/
def jsSubstrTo (s : String) (n : Nat) : String :=
  String.mk (s.data.take n)

/-- JS `array.join(sep)`. -/
def jsJoin (sep : String) : List String → String
  | [] => ""
  | x :: xs => xs.foldl (fun acc y => acc ++ sep ++ y) x

/-- JS truthiness of an optional string attribute value: `undefined` and the
empty string are falsy. -/
def jsTruthy (o : Option String) : Bool :=
  match o with
  | none => false
  | some s => s ≠ ""

/-- JS `record[key] = (record[key] || 0) + 1` on a plain object, modelled as an
insertion-ordered association list. -/
def bumpCount : List (String × Nat) → String → List (String × Nat)
  | [], k => [(k, 1)]
  | (k', n) :: rest, k =>
    if k' = k then (k', n + 1) :: rest else (k', n) :: bumpCount rest k

/-! ## Data model (`types.ts`)

Only the fields the core reads or writes are carried. The optional
"enhanced explanation" fields (`detailedExplanation`, `userImpact`, `howToFix`,
...) that `ExplanationGenerator.enhanceIssue` / `ARIAExplanationGenerator.enhanceIssue`
attach are large constant texts never inspected by the core logic; the
embedding projects issues onto the core fields, on which both enhancement
passes are the identity (they only spread the issue and add the extra fields).
-/

structure AccessibilityIssue where
  type : String
  rule : String
  message : String
  element : Option String := none
  selector : Option String := none
  standard : String
  level : Option String := none
  impact : Option String := none
deriving Repr, DecidableEq

structure EvaluationSummary where
  totalIssues : Nat
  errors : Nat
  warnings : Nat
  info : Nat
  byStandard : List (String × Nat)
  byImpact : List (String × Nat)
deriving Repr, DecidableEq

structure EvaluationResult where
  issues : List AccessibilityIssue
  summary : EvaluationSummary
  passedChecks : List String
deriving Repr, DecidableEq

structure WCAGCriterion where
  id : String
  name : String
  level : String
  principle : String
  guideline : String
  techniques : List String
  commonFailures : List String
deriving Repr, DecidableEq

structure WCAGDetailedScores where
  perceivable : Nat
  operable : Nat
  understandable : Nat
  robust : Nat
deriving Repr, DecidableEq

structure WCAGComplianceReport where
  level : String
  passedCriteria : List WCAGCriterion
  failedCriteria : List WCAGCriterion
  notApplicableCriteria : List WCAGCriterion
  overallScore : Nat
  detailedScores : WCAGDetailedScores
deriving Repr, DecidableEq

def emptySummary : EvaluationSummary :=
  { totalIssues := 0, errors := 0, warnings := 0, info := 0,
    byStandard := [], byImpact := [] }

def emptyEvaluation : EvaluationResult :=
  { issues := [], summary := emptySummary, passedChecks := [] }

/-! ## WCAG compliance checker (`wcag-compliance-checker.ts`) -/

namespace WCAGComplianceChecker

/-- The criteria catalog built by `initializeCriteria`, as an insertion-ordered
association list (the source `Map` is only iterated in insertion order and
looked up by key). -/
def criteria : List (String × WCAGCriterion) :=
  [ ("1.1.1",
     { id := "1.1.1", name := "Non-text Content", level := "A",
       principle := "Perceivable", guideline := "1.1 Text Alternatives",
       techniques := ["H37", "H36", "H35", "H53", "ARIA6", "ARIA10"],
       commonFailures := ["F3", "F13", "F20", "F30", "F38", "F39", "F65"] }),
    ("1.2.1",
     { id := "1.2.1", name := "Audio-only and Video-only (Prerecorded)", level := "A",
       principle := "Perceivable", guideline := "1.2 Time-based Media",
       techniques := ["G158", "G159", "G166"], commonFailures := [] }),
    ("1.3.1",
     { id := "1.3.1", name := "Info and Relationships", level := "A",
       principle := "Perceivable", guideline := "1.3 Adaptable",
       techniques := ["ARIA11", "ARIA12", "ARIA13", "ARIA16", "ARIA17",
                      "G115", "H39", "H42", "H43", "H44", "H48"],
       commonFailures := ["F2", "F33", "F34", "F42", "F43", "F46"] }),
    ("1.4.1",
     { id := "1.4.1", name := "Use of Color", level := "A",
       principle := "Perceivable", guideline := "1.4 Distinguishable",
       techniques := ["G14", "G111", "G182", "G183"],
       commonFailures := ["F13", "F73", "F81"] }),
    ("2.1.1",
     { id := "2.1.1", name := "Keyboard", level := "A",
       principle := "Operable", guideline := "2.1 Keyboard Accessible",
       techniques := ["G202", "H91", "SCR20", "SCR35"],
       commonFailures := ["F10", "F42", "F54", "F55"] }),
    ("2.4.1",
     { id := "2.4.1", name := "Bypass Blocks", level := "A",
       principle := "Operable", guideline := "2.4 Navigable",
       techniques := ["G1", "G123", "G124", "H69", "H70", "H64", "SCR28"],
       commonFailures := [] }),
    ("3.1.1",
     { id := "3.1.1", name := "Language of Page", level := "A",
       principle := "Understandable", guideline := "3.1 Readable",
       techniques := ["H57"], commonFailures := [] }),
    ("4.1.1",
     { id := "4.1.1", name := "Parsing", level := "A",
       principle := "Robust", guideline := "4.1 Compatible",
       techniques := ["G134", "G192", "H88", "H74", "H75", "H93", "H94"],
       commonFailures := ["F70", "F77"] }),
    ("1.4.3",
     { id := "1.4.3", name := "Contrast (Minimum)", level := "AA",
       principle := "Perceivable", guideline := "1.4 Distinguishable",
       techniques := ["G18", "G148", "G174", "G145"],
       commonFailures := ["F24", "F83"] }),
    ("1.4.5",
     { id := "1.4.5", name := "Images of Text", level := "AA",
       principle := "Perceivable", guideline := "1.4 Distinguishable",
       techniques := ["C22", "C30", "G140"], commonFailures := [] }),
    ("2.4.6",
     { id := "2.4.6", name := "Headings and Labels", level := "AA",
       principle := "Operable", guideline := "2.4 Navigable",
       techniques := ["G130", "G131"], commonFailures := [] }),
    ("3.3.3",
     { id := "3.3.3", name := "Error Suggestion", level := "AA",
       principle := "Understandable", guideline := "3.3 Input Assistance",
       techniques := ["G83", "G84", "G85", "G177", "SCR18", "SCR32"],
       commonFailures := [] }),
    ("1.4.6",
     { id := "1.4.6", name := "Contrast (Enhanced)", level := "AAA",
       principle := "Perceivable", guideline := "1.4 Distinguishable",
       techniques := ["G17", "G18", "G148", "G174"],
       commonFailures := ["F24", "F83"] }),
    ("2.4.9",
     { id := "2.4.9", name := "Link Purpose (Link Only)", level := "AAA",
       principle := "Operable", guideline := "2.4 Navigable",
       techniques := ["ARIA7", "ARIA8", "H30", "H24"], commonFailures := [] }),
    ("3.1.5",
     { id := "3.1.5", name := "Reading Level", level := "AAA",
       principle := "Understandable", guideline := "3.1 Readable",
       techniques := ["G86", "G103", "G79", "G153", "G160"],
       commonFailures := [] }) ]

/-- `const levelOrder = ['A', 'AA', 'AAA']`. -/
def levelOrder : List String := ["A", "AA", "AAA"]

/-- `getApplicableCriteria`: throws on an unknown target level, otherwise keeps
every catalog criterion whose level index is `<=` the target index (note the
source compares `levelOrder.indexOf(criterion.level) <= targetIndex` with a
JS `indexOf` that yields `-1` for unknown levels). -/
def getApplicableCriteria (targetLevel : String) :
    Except String (List (String × WCAGCriterion)) :=
  let targetIndex := jsIndexOf levelOrder targetLevel
  if targetIndex = -1 then
    .error ("Invalid target level: " ++ targetLevel)
  else
    .ok (criteria.filter (fun p => jsIndexOf levelOrder p.2.level ≤ targetIndex))

/-- Issues grouped onto one criterion id: the source collects into
`criteriaIssues` every issue whose `rule` starts with `"WCAG"`, keyed by
`issue.rule.replace('WCAG ', '')`, and classification reads the bucket of the
criterion id. -/
def issuesForCriterion (issues : List AccessibilityIssue) (id : String) :
    List AccessibilityIssue :=
  issues.filter (fun i =>
    jsStartsWith i.rule "WCAG" && jsReplaceFirst i.rule "WCAG " "" == id)

/-- `isCriterionApplicable`: some passed check mentions the criterion id, or its
lower-cased kebab-case name. -/
def isCriterionApplicable (criterion : WCAGCriterion)
    (evaluationResult : EvaluationResult) : Bool :=
  let kebabName := String.mk (wsRunsToDash (jsToLowerCase criterion.name).data)
  (evaluationResult.passedChecks.filter (fun check =>
    jsIncludes check criterion.id || jsIncludes (jsToLowerCase check) kebabName)).length > 0

/-- The branch of the `applicableCriteria.forEach` classification a criterion
falls into. -/
inductive CriterionClass where
  | failed
  | passed
  | notApplicable
deriving Repr, DecidableEq

/-- The if / else-if / else chain of the classification loop in
`evaluateCompliance`. -/
def criterionClass (evaluationResult : EvaluationResult) (id : String)
    (criterion : WCAGCriterion) : CriterionClass :=
  if (issuesForCriterion evaluationResult.issues id).length > 0 then .failed
  else if isCriterionApplicable criterion evaluationResult then .passed
  else .notApplicable

/-- The `for (let i = 0; i <= targetIndex; i++)` loop of
`calculateComplianceLevel`: walk the levels from `A` upward, and at the first
level with a failed criterion return the verdict of the matching branch. -/
def firstFailureVerdict (failed : List WCAGCriterion) :
    List String → Option String
  | [] => none
  | lv :: rest =>
    if (failed.filter (fun c => c.level = lv)).length > 0 then
      if lv = "A" then some "None"
      else if lv = "AA" then some "A"
      else if lv = "AAA" then some "AA"
      else firstFailureVerdict failed rest
    else firstFailureVerdict failed rest

/-- `calculateComplianceLevel`. The comparison `targetLevel >= 'AA'` in the
source is JS lexicographic string comparison, modelled by `jsGeStr`. -/
def calculateComplianceLevel (passed failed : List WCAGCriterion)
    (targetLevel : String) : String :=
  let targetIndex := jsIndexOf levelOrder targetLevel
  match firstFailureVerdict failed (levelOrder.take (targetIndex + 1).toNat) with
  | some verdict => verdict
  | none =>
    let passedA := (passed.filter (fun c => c.level = "A")).length
    let passedAA := (passed.filter (fun c => c.level = "AA")).length
    let passedAAA := (passed.filter (fun c => c.level = "AAA")).length
    if targetLevel = "AAA" && passedAAA > 0 && passedAA > 0 && passedA > 0 then
      "AAA"
    else if jsGeStr targetLevel "AA" && passedAA > 0 && passedA > 0 then "AA"
    else if passedA > 0 then "A"
    else "None"

/-- `calculateOverallScore`: `Math.round((passed.length / total) * 100)` with
`0` for an empty total, as exact half-up rounding. -/
def calculateOverallScore (passed failed : List WCAGCriterion) : Nat :=
  let total := passed.length + failed.length
  if total = 0 then 0
  else (200 * passed.length + total) / (2 * total)

/-- `calculateDetailedScores`: the same rounded ratio per WCAG principle,
`0` for a principle with no tested criteria. -/
def calculateDetailedScores (passed failed : List WCAGCriterion) :
    WCAGDetailedScores :=
  let score := fun (principle : String) =>
    let p := (passed.filter (fun c => c.principle = principle)).length
    let f := (failed.filter (fun c => c.principle = principle)).length
    if p + f > 0 then (200 * p + (p + f)) / (2 * (p + f)) else 0
  { perceivable := score "Perceivable", operable := score "Operable",
    understandable := score "Understandable", robust := score "Robust" }

/-- The report built by `evaluateCompliance` once the applicable criteria are
known: the `forEach` pushing each applicable criterion into exactly one of
three arrays is modelled as three order-preserving filters by
`criterionClass` (each criterion is appended to exactly the list selected by
the if / else-if / else chain, in catalog order). -/
def complianceReportFor (evaluationResult : EvaluationResult)
    (applicableCriteria : List (String × WCAGCriterion))
    (targetLevel : String) : WCAGComplianceReport :=
  let passedCriteria := (applicableCriteria.filter (fun p =>
    criterionClass evaluationResult p.1 p.2 = .passed)).map Prod.snd
  let failedCriteria := (applicableCriteria.filter (fun p =>
    criterionClass evaluationResult p.1 p.2 = .failed)).map Prod.snd
  let notApplicableCriteria := (applicableCriteria.filter (fun p =>
    criterionClass evaluationResult p.1 p.2 = .notApplicable)).map Prod.snd
  { level := calculateComplianceLevel passedCriteria failedCriteria targetLevel,
    passedCriteria := passedCriteria,
    failedCriteria := failedCriteria,
    notApplicableCriteria := notApplicableCriteria,
    overallScore := calculateOverallScore passedCriteria failedCriteria,
    detailedScores := calculateDetailedScores passedCriteria failedCriteria }

/-- `evaluateCompliance`: reject an invalid target level, otherwise classify
the applicable criteria and assemble the report. -/
def evaluateCompliance (evaluationResult : EvaluationResult)
    (targetLevel : String) : Except String WCAGComplianceReport :=
  match getApplicableCriteria targetLevel with
  | .error e => .error e
  | .ok applicableCriteria =>
    .ok (complianceReportFor evaluationResult applicableCriteria targetLevel)

end WCAGComplianceChecker

/-! ## DOM model

The rule sets and the ARIA validator read the document through cheerio-style
queries: select by tag / attribute / role, read attributes, take ancestors
(`closest`), descendants (`find`), text content, and serialized `outerHTML`.
A document is modelled as a forest of elements; queries traverse it in
document order (preorder). -/

inductive Elem : Type where
  | mk : String → List (String × String) → String → List Elem → Elem
deriving Repr

/-- Lower-case tag name of an element (cheerio's `tagName` under the default
HTML parser is lower-cased; documents in this model carry tags as written). -/
def Elem.tag : Elem → String
  | .mk t _ _ _ => t

/-- Attribute list of an element, in source order. -/
def Elem.attrList : Elem → List (String × String)
  | .mk _ a _ _ => a

/-- Direct text of an element (the model attaches each element's character
data in one block before its child elements). -/
def Elem.ownText : Elem → String
  | .mk _ _ s _ => s

/-- Child elements. -/
def Elem.children : Elem → List Elem
  | .mk _ _ _ c => c

/-- `$el.attr(name)`: the value of the first attribute with that name, or
`undefined`. -/
def Elem.attr? (e : Elem) (name : String) : Option String :=
  (e.attrList.find? (fun p => p.1 = name)).map Prod.snd

mutual

/-- Preorder traversal of one element: the element itself (paired with its
ancestor chain, nearest first), then its subtree. -/
def elemNodes (anc : List Elem) : Elem → List (Elem × List Elem)
  | .mk t a s c =>
    (Elem.mk t a s c, anc) :: forestNodes (Elem.mk t a s c :: anc) c

/-- Preorder traversal of a forest. -/
def forestNodes (anc : List Elem) : List Elem → List (Elem × List Elem)
  | [] => []
  | e :: es => elemNodes anc e ++ forestNodes anc es

end

abbrev Doc := List Elem

/-- All elements of a document, in document order, each with its ancestor
chain (nearest ancestor first). -/
def Doc.nodes (d : Doc) : List (Elem × List Elem) :=
  forestNodes [] d

/-- All elements of a document in document order. -/
def Doc.elems (d : Doc) : List Elem :=
  (Doc.nodes d).map Prod.fst

mutual

/-- Serialized markup of an element, used for the truncated `element` field of
issues (`$el.prop('outerHTML')`). -/
def Elem.outerHTML : Elem → String
  | .mk t a s c =>
    "<" ++ t
      ++ String.join (a.map (fun p => " " ++ p.1 ++ "=\"" ++ p.2 ++ "\""))
      ++ ">" ++ s ++ forestHTML c ++ "</" ++ t ++ ">"

/-- Serialized markup of a forest. -/
def forestHTML : List Elem → String
  | [] => ""
  | e :: es => Elem.outerHTML e ++ forestHTML es

end

mutual

/-- `$el.text()`: concatenated character data of the subtree. -/
def Elem.textContent : Elem → String
  | .mk _ _ s c => s ++ forestText c

/-- Concatenated character data of a forest. -/
def forestText : List Elem → String
  | [] => ""
  | e :: es => Elem.textContent e ++ forestText es

end

/-- Elements of the document carrying an attribute with the given name
(`$('[name]')`). -/
def elemsWithAttr (d : Doc) (name : String) : List Elem :=
  (Doc.elems d).filter (fun e => (Elem.attr? e name).isSome)

/-- Elements of the document whose attribute `name` equals `value`
(`$('[name="value"]')`). -/
def elemsWithAttrVal (d : Doc) (name value : String) : List Elem :=
  (Doc.elems d).filter (fun e => Elem.attr? e name = some value)

/-- `$('#id').length > 0`. -/
def hasElemWithId (d : Doc) (id : String) : Bool :=
  (Doc.elems d).any (fun e => Elem.attr? e "id" = some id)

/-! ## Accessibility evaluator (`accessibility-evaluator.ts`) -/

namespace AccessibilityEvaluator

/-- The evaluator's private `getSelector`: id, else classes, else tag name
(JS truthiness: empty-string attribute values fall through). -/
def getSelector (e : Elem) : String :=
  if jsTruthy (Elem.attr? e "id") then "#" ++ ((Elem.attr? e "id").getD "")
  else if jsTruthy (Elem.attr? e "class") then
    let classList := (jsSplitSpace ((Elem.attr? e "class").getD "")).filter
      (fun c => jsTrim c ≠ "")
    if classList.length > 0 then
      Elem.tag e ++ "." ++ jsJoin "." classList
    else Elem.tag e
  else Elem.tag e

/-- The issue the `images-alt-text` rule pushes for one offending `img`. -/
def imgAltIssue (e : Elem) : AccessibilityIssue :=
  { type := "error", rule := "WCAG 1.1.1",
    message := "Images must have alternative text",
    element := some (jsSubstrTo (Elem.outerHTML e) 100),
    selector := some (getSelector e),
    standard := "WCAG", level := some "A", impact := some "critical" }

/-- The `images-alt-text` rule: for every `img` element, an error when
`alt === undefined` and the `role` attribute (if any) does not contain the
substring `"presentation"`. -/
def imagesAltTextCheck (d : Doc) : List AccessibilityIssue :=
  ((Doc.elems d).filter (fun e => Elem.tag e = "img")).filterMap (fun e =>
    match Elem.attr? e "alt" with
    | some _ => none
    | none =>
      match Elem.attr? e "role" with
      | some r => if jsIncludes r "presentation" then none else some (imgAltIssue e)
      | none => some (imgAltIssue e))

/-- `parseInt(element.tagName.charAt(1))` for the six heading tags selected by
`$('h1, h2, h3, h4, h5, h6')`. -/
def headingLevelOf (tag : String) : Option Nat :=
  if tag = "h1" then some 1
  else if tag = "h2" then some 2
  else if tag = "h3" then some 3
  else if tag = "h4" then some 4
  else if tag = "h5" then some 5
  else if tag = "h6" then some 6
  else none

/-- The `lastLevel` loop of the `headings-structure` rule. -/
def headingsLoop : Nat → List (Elem × Nat) → List AccessibilityIssue
  | _, [] => []
  | lastLevel, (e, level) :: rest =>
    (if lastLevel ≠ 0 ∧ level > lastLevel + 1 then
      [{ type := "warning", rule := "WCAG 1.3.1",
         message := "Heading levels should not skip (found h" ++ toString level
           ++ " after h" ++ toString lastLevel ++ ")",
         element := some (jsSubstrTo (Elem.textContent e) 50),
         selector := some (getSelector e),
         standard := "WCAG", level := some "A", impact := some "moderate" }]
     else []) ++ headingsLoop level rest

/-- The `headings-structure` rule. -/
def headingsStructureCheck (d : Doc) : List AccessibilityIssue :=
  headingsLoop 0 ((Doc.elems d).filterMap (fun e =>
    (headingLevelOf (Elem.tag e)).map (fun lv => (e, lv))))

/-- The `form-labels` rule: `input`/`select`/`textarea` other than
submit/button/hidden must have a matching `label[for]`, an `aria-label`, or an
`aria-labelledby` (JS truthiness: empty-string values do not count). -/
def formLabelsCheck (d : Doc) : List AccessibilityIssue :=
  ((Doc.elems d).filter (fun e =>
    Elem.tag e = "input" || Elem.tag e = "select" || Elem.tag e = "textarea")).filterMap
    (fun e =>
      let ty := Elem.attr? e "type"
      if ty = some "submit" || ty = some "button" || ty = some "hidden" then none
      else
        let hasLabel :=
          match Elem.attr? e "id" with
          | some id =>
            if id ≠ "" then
              ((Doc.elems d).filter (fun l =>
                Elem.tag l = "label" && Elem.attr? l "for" = some id)).length > 0
            else false
          | none => false
        if !hasLabel && !(jsTruthy (Elem.attr? e "aria-label"))
            && !(jsTruthy (Elem.attr? e "aria-labelledby")) then
          some { type := "error", rule := "WCAG 1.3.1",
                 message := "Form controls must have associated labels",
                 element := some (jsSubstrTo (Elem.outerHTML e) 100),
                 selector := some (getSelector e),
                 standard := "WCAG", level := some "A", impact := some "critical" }
        else none)

/-- The `requiredAttributes` record of the `aria-required-attr` rule. -/
def requiredAttributesTable : List (String × List String) :=
  [("checkbox", ["aria-checked"]),
   ("combobox", ["aria-expanded"]),
   ("scrollbar", ["aria-valuenow", "aria-valuemin", "aria-valuemax"]),
   ("slider", ["aria-valuenow", "aria-valuemin", "aria-valuemax"])]

/-- The `aria-required-attr` rule. -/
def ariaRequiredAttrCheck (d : Doc) : List AccessibilityIssue :=
  ((Doc.elems d).filter (fun e => (Elem.attr? e "role").isSome)).flatMap (fun e =>
    match Elem.attr? e "role" with
    | some role =>
      if role ≠ "" then
        match (requiredAttributesTable.find? (fun p => p.1 = role)).map Prod.snd with
        | some attrs =>
          attrs.filterMap (fun attr =>
            if Elem.attr? e attr = none then
              some { type := "error", rule := "ARIA Required Attributes",
                     message := "Elements with role=\"" ++ role ++ "\" must have "
                       ++ attr ++ " attribute",
                     element := some (jsSubstrTo (Elem.outerHTML e) 100),
                     selector := some (getSelector e),
                     standard := "ARIA", impact := some "serious" }
            else none)
        | none => []
      else []
    | none => [])

/-- The `validValues` record of the `aria-valid-values` rule, in key order. -/
def validValuesTable : List (String × List String) :=
  [("aria-checked", ["true", "false", "mixed"]),
   ("aria-disabled", ["true", "false"]),
   ("aria-expanded", ["true", "false"]),
   ("aria-hidden", ["true", "false"]),
   ("aria-invalid", ["true", "false", "grammar", "spelling"])]

/-- The `aria-valid-values` rule. -/
def ariaValidValuesCheck (d : Doc) : List AccessibilityIssue :=
  validValuesTable.flatMap (fun p =>
    (elemsWithAttr d p.1).filterMap (fun e =>
      match Elem.attr? e p.1 with
      | some value =>
        if value ≠ "" && !(p.2.contains value) then
          some { type := "error", rule := "ARIA Valid Values",
                 message := "Invalid value for " ++ p.1 ++ ": \"" ++ value
                   ++ "\". Valid values are: " ++ jsJoin ", " p.2,
                 element := some (jsSubstrTo (Elem.outerHTML e) 100),
                 selector := some (getSelector e),
                 standard := "ARIA", impact := some "serious" }
        else none
      | none => none))

/-- The `wcagRules` map, in insertion order. -/
def wcagRules : List (String × (Doc → List AccessibilityIssue)) :=
  [("images-alt-text", imagesAltTextCheck),
   ("headings-structure", headingsStructureCheck),
   ("form-labels", formLabelsCheck)]

/-- The `ariaRules` map, in insertion order. -/
def ariaRules : List (String × (Doc → List AccessibilityIssue)) :=
  [("aria-required-attr", ariaRequiredAttrCheck),
   ("aria-valid-values", ariaValidValuesCheck)]

/-- One `for (const [ruleName, rule] of ...)` loop of `evaluateHTML`: a rule
with zero issues records a namespaced passed check, otherwise its issues are
appended. Returns (issues, passedChecks). -/
def runRuleGroup (standardName : String)
    (rules : List (String × (Doc → List AccessibilityIssue))) (d : Doc) :
    List AccessibilityIssue × List String :=
  rules.foldl (fun acc r =>
    let ruleIssues := r.2 d
    if ruleIssues.length = 0 then (acc.1, acc.2 ++ [standardName ++ ": " ++ r.1])
    else (acc.1 ++ ruleIssues, acc.2)) ([], [])

/-- `ExplanationGenerator.enhanceIssue` spreads the issue and attaches the
constant explanation record selected by `issue.rule`; on the core fields
modelled here it is the identity. -/
def enhanceIssue (issue : AccessibilityIssue) : AccessibilityIssue :=
  issue

/-- One node of an axe-core violation. -/
structure AxeNodeResult where
  html : String
  target : List String
  impact : Option String
deriving Repr, DecidableEq

/-- An axe-core violation, at the boundary shape `runAxeCore` reads. -/
structure AxeViolation where
  id : String
  description : String
  nodes : List AxeNodeResult
deriving Repr, DecidableEq

/-- The translation of one violation into the `Issue` shape
(`standard: "AXE"`, impact copied from the first affected node). -/
def translateViolation (v : AxeViolation) : AccessibilityIssue :=
  let node := v.nodes.headD { html := "", target := [], impact := none }
  { type := "error", rule := v.id, message := v.description,
    element := some node.html,
    selector := some (jsJoin " " node.target),
    standard := "AXE", impact := node.impact }

/-- `runAxeCore`: the inner try/catch around `axe.run` — a rejecting run is
caught and yields the empty issue list. The argument stands for the outcome of
the awaited `axe.run` call on the same document. -/
def runAxeCore (axeRun : Except String (List AxeViolation)) :
    Except String (List AccessibilityIssue) :=
  match axeRun with
  | .ok violations => .ok (violations.map translateViolation)
  | .error _ => .ok []

/-- `evaluateHTML`. The second argument stands for the outcome of
`await this.runAxeCore(html)`; the try/catch around it means a thrown error is
logged and evaluation proceeds with no axe-origin issues. -/
def evaluateHTML (d : Doc)
    (axeOutcome : Except String (List AccessibilityIssue)) : EvaluationResult :=
  let wcagRun := runRuleGroup "WCAG" wcagRules d
  let ariaRun := runRuleGroup "ARIA" ariaRules d
  let axeIssues := match axeOutcome with
    | .ok axeResults => axeResults
    | .error _ => []
  let issues := wcagRun.1 ++ ariaRun.1 ++ axeIssues
  let enhancedIssues := issues.map enhanceIssue
  { issues := enhancedIssues,
    summary :=
      { totalIssues := enhancedIssues.length,
        errors := (enhancedIssues.filter (fun i => i.type = "error")).length,
        warnings := (enhancedIssues.filter (fun i => i.type = "warning")).length,
        info := (enhancedIssues.filter (fun i => i.type = "info")).length,
        byStandard := enhancedIssues.foldl (fun m i => bumpCount m i.standard) [],
        byImpact := enhancedIssues.foldl (fun m i =>
          if jsTruthy i.impact then bumpCount m (i.impact.getD "") else m) [] },
    passedChecks := wcagRun.2 ++ ariaRun.2 }

end AccessibilityEvaluator

/-! ## ARIA validator (`aria-validator.ts`) -/

structure ARIARole where
  name : String
  category : String
  requiredProperties : List String
  supportedProperties : List String
  implicitSemantics : Option String := none
  requiredParent : Option (List String) := none
  requiredChildren : Option (List String) := none
deriving Repr, DecidableEq

structure ARIAValidationIssue where
  type : String
  element : String
  selector : String
  message : String
  recommendation : String
  specification : String
deriving Repr, DecidableEq

structure ARIAStatistics where
  totalARIAElements : Nat
  rolesUsed : List String
  propertiesUsed : List String
  statesUsed : List String
deriving Repr, DecidableEq

structure ARIAValidationResult where
  issues : List ARIAValidationIssue
  validUsages : List String
  statistics : ARIAStatistics
deriving Repr, DecidableEq

namespace ARIAValidator

/-- The role catalog built once per validator, in insertion order. -/
def roles : List (String × ARIARole) :=
  [ ("button",
     { name := "button", category := "widget", requiredProperties := [],
       supportedProperties := ["aria-expanded", "aria-pressed", "aria-disabled"],
       implicitSemantics := some "button" }),
    ("checkbox",
     { name := "checkbox", category := "widget",
       requiredProperties := ["aria-checked"],
       supportedProperties := ["aria-required", "aria-readonly", "aria-disabled"] }),
    ("navigation",
     { name := "navigation", category := "landmark", requiredProperties := [],
       supportedProperties := ["aria-label", "aria-labelledby"] }),
    ("main",
     { name := "main", category := "landmark", requiredProperties := [],
       supportedProperties := ["aria-label", "aria-labelledby"] }),
    ("complementary",
     { name := "complementary", category := "landmark", requiredProperties := [],
       supportedProperties := ["aria-label", "aria-labelledby"] }),
    ("menu",
     { name := "menu", category := "widget", requiredProperties := [],
       supportedProperties := ["aria-orientation", "aria-activedescendant"],
       requiredChildren := some ["menuitem", "menuitemcheckbox", "menuitemradio"] }),
    ("menuitem",
     { name := "menuitem", category := "widget", requiredProperties := [],
       supportedProperties := ["aria-disabled", "aria-expanded", "aria-haspopup"],
       requiredParent := some ["menu", "menubar"] }),
    ("alert",
     { name := "alert", category := "widget", requiredProperties := [],
       supportedProperties := ["aria-live", "aria-atomic"] }),
    ("dialog",
     { name := "dialog", category := "window", requiredProperties := [],
       supportedProperties := ["aria-modal", "aria-label", "aria-labelledby",
                               "aria-describedby"] }),
    ("tablist",
     { name := "tablist", category := "widget", requiredProperties := [],
       supportedProperties := ["aria-orientation"],
       requiredChildren := some ["tab"] }),
    ("tab",
     { name := "tab", category := "widget", requiredProperties := [],
       supportedProperties := ["aria-selected", "aria-controls"],
       requiredParent := some ["tablist"] }),
    ("tabpanel",
     { name := "tabpanel", category := "widget", requiredProperties := [],
       supportedProperties := ["aria-labelledby"] }) ]

/-- The recognized ARIA properties, in the insertion order of the source set. -/
def ariaProperties : List String :=
  ["aria-label", "aria-labelledby", "aria-describedby", "aria-controls",
   "aria-haspopup", "aria-expanded", "aria-hidden", "aria-invalid",
   "aria-required", "aria-readonly", "aria-disabled", "aria-checked",
   "aria-selected", "aria-pressed", "aria-level", "aria-valuemin",
   "aria-valuemax", "aria-valuenow", "aria-valuetext", "aria-orientation",
   "aria-live", "aria-atomic", "aria-relevant", "aria-busy", "aria-modal",
   "aria-activedescendant", "aria-owns", "aria-flowto", "aria-posinset",
   "aria-setsize", "aria-rowcount", "aria-colcount"]

/-- The subset of attributes the source flags as ARIA states. The `validate`
method reads this set nowhere. -/
def ariaStates : List String :=
  ["aria-busy", "aria-checked", "aria-disabled", "aria-expanded",
   "aria-grabbed", "aria-hidden", "aria-invalid", "aria-pressed",
   "aria-selected"]

/-- `this.roles.get(role)` / `this.roles.has(role)`. -/
def lookupRole (r : String) : Option ARIARole :=
  (roles.find? (fun p => p.1 = r)).map Prod.snd

/-- The validator's private `getSelector`: id, else role, else classes, else
tag name. -/
def getSelector (e : Elem) : String :=
  if jsTruthy (Elem.attr? e "id") then "#" ++ ((Elem.attr? e "id").getD "")
  else if jsTruthy (Elem.attr? e "role") then
    "[role=\"" ++ ((Elem.attr? e "role").getD "") ++ "\"]"
  else if jsTruthy (Elem.attr? e "class") then
    let classList := (jsSplitSpace ((Elem.attr? e "class").getD "")).filter
      (fun c => jsTrim c ≠ "")
    if classList.length > 0 then
      Elem.tag e ++ "." ++ jsJoin "." classList
    else Elem.tag e
  else Elem.tag e

/-- JS `Set.add`: append if not yet present (insertion-ordered set). -/
def setAdd (l : List String) (s : String) : List String :=
  if l.contains s then l else l ++ [s]

/-- The `$('[role]')` selection of `validate`, with ancestor chains (needed
for the `closest` containment check). -/
def roleNodes (d : Doc) : List (Elem × List Elem) :=
  (Doc.nodes d).filter (fun p => (Elem.attr? p.1 "role").isSome)

/-- Issues the role-validation loop pushes for one element carrying `role`:
unknown role, else missing required properties followed by the containment
check. `closest` tests the element itself and then its ancestors. -/
def roleIssuesFor (p : Elem × List Elem) : List ARIAValidationIssue :=
  match Elem.attr? p.1 "role" with
  | none => []
  | some role =>
    match lookupRole role with
    | none =>
      [{ type := "error", element := jsSubstrTo (Elem.outerHTML p.1) 100,
         selector := getSelector p.1,
         message := "Invalid ARIA role: \"" ++ role ++ "\"",
         recommendation := "Use a valid ARIA role from the WAI-ARIA specification",
         specification := "WAI-ARIA 1.2" }]
    | some roleSpec =>
      (roleSpec.requiredProperties.filterMap (fun prop =>
        if Elem.attr? p.1 prop = none then
          some { type := "error", element := jsSubstrTo (Elem.outerHTML p.1) 100,
                 selector := getSelector p.1,
                 message := "Missing required property \"" ++ prop
                   ++ "\" for role=\"" ++ role ++ "\"",
                 recommendation := "Add " ++ prop
                   ++ " attribute to elements with role=\"" ++ role ++ "\"",
                 specification := "WAI-ARIA 1.2" }
        else none))
      ++ (match roleSpec.requiredParent with
          | some requiredParent =>
            if !(requiredParent.any (fun parentRole =>
                (p.1 :: p.2).any (fun a => Elem.attr? a "role" = some parentRole))) then
              [{ type := "error", element := jsSubstrTo (Elem.outerHTML p.1) 100,
                 selector := getSelector p.1,
                 message := "Role \"" ++ role ++ "\" must be contained within one of: "
                   ++ jsJoin ", " requiredParent,
                 recommendation := "Place this element inside an element with role=\""
                   ++ requiredParent.headD "" ++ "\"",
                 specification := "WAI-ARIA 1.2" }]
            else []
          | none => [])

/-- The `validUsages` entries pushed by the role loop (for every known role,
whether or not property/containment errors were also pushed). -/
def validUsagesOf (d : Doc) : List String :=
  (roleNodes d).filterMap (fun p =>
    match Elem.attr? p.1 "role" with
    | some role =>
      if (lookupRole role).isSome then
        some ("Correct use of role=\"" ++ role ++ "\" on " ++ getSelector p.1)
      else none
    | none => none)

/-- Issues of the property loop for one recognized property name: an
empty-string value is a warning, and each whitespace-separated
`aria-labelledby` target without a matching `id` is an error. -/
def propIssuesFor (d : Doc) (prop : String) : List ARIAValidationIssue :=
  (elemsWithAttr d prop).flatMap (fun e =>
    let value := Elem.attr? e prop
    (if value = some "" then
      [{ type := "warning", element := jsSubstrTo (Elem.outerHTML e) 100,
         selector := getSelector e,
         message := "Empty value for " ++ prop,
         recommendation := "Provide a meaningful value for " ++ prop
           ++ " or remove the attribute",
         specification := "WAI-ARIA 1.2" }]
     else [])
    ++ (if prop = "aria-labelledby" ∧ jsTruthy value then
          (jsSplitSpace (value.getD "")).filterMap (fun id =>
            if !(hasElemWithId d id) then
              some { type := "error", element := jsSubstrTo (Elem.outerHTML e) 100,
                     selector := getSelector e,
                     message := "aria-labelledby references non-existent ID: \""
                       ++ id ++ "\"",
                     recommendation := "Ensure element with id=\"" ++ id
                       ++ "\" exists in the document",
                     specification := "WAI-ARIA 1.2" }
            else none)
        else []))

/-- The full `this.properties.forEach` pass. -/
def allPropIssues (d : Doc) : List ARIAValidationIssue :=
  ariaProperties.flatMap (propIssuesFor d)

/-- The redundant-role pass over
`button[role="button"], nav[role="navigation"], main[role="main"],
aside[role="complementary"]`. -/
def redundantRoleIssues (d : Doc) : List ARIAValidationIssue :=
  ((Doc.elems d).filter (fun e =>
    (Elem.tag e = "button" && Elem.attr? e "role" = some "button") ||
    (Elem.tag e = "nav" && Elem.attr? e "role" = some "navigation") ||
    (Elem.tag e = "main" && Elem.attr? e "role" = some "main") ||
    (Elem.tag e = "aside" && Elem.attr? e "role" = some "complementary"))).map
    (fun e =>
      { type := "warning", element := jsSubstrTo (Elem.outerHTML e) 100,
        selector := getSelector e,
        message := "Redundant ARIA role on " ++ Elem.tag e ++ " element",
        recommendation := "Remove redundant role attribute as the element has implicit semantics",
        specification := "WAI-ARIA 1.2" })

/-- The focusable-element test
`a[href], button, input, select, textarea, [tabindex]:not([tabindex="-1"])`. -/
def isFocusable (e : Elem) : Bool :=
  (Elem.tag e = "a" && (Elem.attr? e "href").isSome) ||
  Elem.tag e = "button" || Elem.tag e = "input" ||
  Elem.tag e = "select" || Elem.tag e = "textarea" ||
  (match Elem.attr? e "tabindex" with
   | some t => t ≠ "-1"
   | none => false)

/-- Strict descendants of an element (`$el.find(...)` scope). -/
def descendantsOf (e : Elem) : List Elem :=
  (forestNodes [] (Elem.children e)).map Prod.fst

/-- The `aria-hidden="true"` pass. -/
def ariaHiddenIssues (d : Doc) : List ARIAValidationIssue :=
  ((Doc.elems d).filter (fun e => Elem.attr? e "aria-hidden" = some "true")).filterMap
    (fun e =>
      if isFocusable e || (descendantsOf e).any isFocusable then
        some { type := "error", element := jsSubstrTo (Elem.outerHTML e) 100,
               selector := getSelector e,
               message := "aria-hidden=\"true\" on focusable element or container with focusable children",
               recommendation := "Remove aria-hidden or make element and children non-focusable",
               specification := "WAI-ARIA 1.2" }
      else none)

/-- `const landmarks = ['main', 'navigation', 'complementary', 'banner',
'contentinfo']`. -/
def landmarks : List String :=
  ["main", "navigation", "complementary", "banner", "contentinfo"]

/-- The error pushed for a duplicated `main` landmark. -/
def landmarkMainError (landmark : String) : ARIAValidationIssue :=
  { type := "error", element := "Multiple elements",
    selector := "[role=\"" ++ landmark ++ "\"]",
    message := "Multiple main landmarks found",
    recommendation := "Use only one main landmark per page",
    specification := "WAI-ARIA 1.2" }

/-- The warning pushed for a duplicated non-`main` landmark with unlabeled
bearers. -/
def landmarkWarning (landmark : String) : ARIAValidationIssue :=
  { type := "warning", element := "Multiple elements",
    selector := "[role=\"" ++ landmark ++ "\"]",
    message := "Multiple " ++ landmark ++ " landmarks without unique labels",
    recommendation := "Add aria-label or aria-labelledby to distinguish between "
      ++ landmark ++ " landmarks",
    specification := "WAI-ARIA 1.2" }

/-- One iteration of the landmark-uniqueness loop: duplicated `main` is always
one error; another duplicated landmark role is one warning when at least one
bearer has neither a truthy `aria-label` nor a truthy `aria-labelledby` (JS
truthiness: an empty-string attribute value does not count as a label). -/
def landmarkIssuesFor (d : Doc) (landmark : String) : List ARIAValidationIssue :=
  let count := (elemsWithAttrVal d "role" landmark).length
  if count > 1 ∧ landmark = "main" then
    [landmarkMainError landmark]
  else if count > 1 then
    if ((elemsWithAttrVal d "role" landmark).filter (fun e =>
        !(jsTruthy (Elem.attr? e "aria-label")) &&
        !(jsTruthy (Elem.attr? e "aria-labelledby")))).length > 0 then
      [landmarkWarning landmark]
    else []
  else []

/-- The landmark-uniqueness pass over the five landmark roles. -/
def landmarkIssues (d : Doc) : List ARIAValidationIssue :=
  landmarks.flatMap (landmarkIssuesFor d)

/-- `ARIAExplanationGenerator.enhanceIssue` spreads the issue and attaches
constant explanation text selected by `issue.message`; on the core fields
modelled here it is the identity. -/
def enhanceIssue (issue : ARIAValidationIssue) : ARIAValidationIssue :=
  issue

/-- The statistics accumulated by `validate`: every element with a `role`
attribute is counted and its role added to the `rolesUsed` set; every
recognized property present on some element is added to `propertiesUsed`;
nothing is ever added to `statesUsed`. -/
def statisticsOf (d : Doc) : ARIAStatistics :=
  { totalARIAElements := (roleNodes d).length,
    rolesUsed := (roleNodes d).foldl
      (fun acc p => setAdd acc ((Elem.attr? p.1 "role").getD "")) [],
    propertiesUsed := ariaProperties.foldl
      (fun acc prop => (elemsWithAttr d prop).foldl (fun a _ => setAdd a prop) acc) [],
    statesUsed := [] }

/-- `validate`: the five issue-producing passes in source order, the enhanced
issue list, the valid usages and the statistics. -/
def validate (d : Doc) : ARIAValidationResult :=
  let issues := (roleNodes d).flatMap roleIssuesFor
    ++ allPropIssues d
    ++ redundantRoleIssues d
    ++ ariaHiddenIssues d
    ++ landmarkIssues d
  { issues := issues.map enhanceIssue,
    validUsages := validUsagesOf d,
    statistics := statisticsOf d }

end ARIAValidator

/-! ## Statement-side definitions and concrete fixtures -/

/-- Half-up rounding of the nonnegative rational `num / den` (the behavior of
JS `Math.round` on nonnegative arguments), as used by the spec's scoring
formula `round(100 * passed / (passed + failed))`. -/
def roundHalfUp (num den : Nat) : Nat :=
  (2 * num + den) / (2 * den)

/-- Placeholder report used only to destructure `Except` values of concrete
evaluations in closed statements. -/
def fallbackReport : WCAGComplianceReport :=
  { level := "", passedCriteria := [], failedCriteria := [],
    notApplicableCriteria := [], overallScore := 0,
    detailedScores := { perceivable := 0, operable := 0, understandable := 0, robust := 0 } }

/-- The report inside an `ok` outcome. -/
def okReport (r : Except String WCAGComplianceReport) : WCAGComplianceReport :=
  match r with
  | .ok rep => rep
  | .error _ => fallbackReport

/-- The criteria list inside an `ok` outcome. -/
def okCriteriaList (r : Except String (List (String × WCAGCriterion))) :
    List (String × WCAGCriterion) :=
  match r with
  | .ok l => l
  | .error _ => []

/-- The applicable criteria computed for target level `A`. -/
def applicableLevelA : List (String × WCAGCriterion) :=
  okCriteriaList (WCAGComplianceChecker.getApplicableCriteria "A")

/-- The applicable criteria computed for target level `AA`. -/
def applicableLevelAA : List (String × WCAGCriterion) :=
  okCriteriaList (WCAGComplianceChecker.getApplicableCriteria "AA")

/-- A concrete evaluation result carrying one issue against WCAG 1.1.1
(a level-A criterion). -/
def evalWithLevelAFailure : EvaluationResult :=
  { issues := [{ type := "error", rule := "WCAG 1.1.1",
                 message := "Images must have alternative text",
                 standard := "WCAG", level := some "A", impact := some "critical" }],
    summary := emptySummary, passedChecks := [] }

/-- A concrete document with two `role="navigation"` landmarks, both carrying
an explicit `aria-label` attribute whose value is the empty string. -/
def docTwoNavEmptyLabels : Doc :=
  [Elem.mk "div" [("role", "navigation"), ("aria-label", "")] "" [],
   Elem.mk "div" [("role", "navigation"), ("aria-label", "")] "" []]

/-- A concrete document with two `role="main"` landmarks and two unlabeled
`role="banner"` landmarks. -/
def docDupLandmarks : Doc :=
  [Elem.mk "div" [("role", "main")] "" [],
   Elem.mk "div" [("role", "main")] "" [],
   Elem.mk "header" [("role", "banner")] "" [],
   Elem.mk "footer" [("role", "banner")] "" []]

/-! ## Theorems

### Compliance-checker basics -/

theorem jsIndexOf_levelOrder_cases (tl : String) :
    (tl = "A" ∧ jsIndexOf WCAGComplianceChecker.levelOrder tl = 0) ∨
    (tl = "AA" ∧ jsIndexOf WCAGComplianceChecker.levelOrder tl = 1) ∨
    (tl = "AAA" ∧ jsIndexOf WCAGComplianceChecker.levelOrder tl = 2) ∨
    (tl ≠ "A" ∧ tl ≠ "AA" ∧ tl ≠ "AAA" ∧
      jsIndexOf WCAGComplianceChecker.levelOrder tl = -1) := by
  by_cases h1 : tl = "A"
  · exact Or.inl ⟨h1, by subst h1; decide⟩
  · by_cases h2 : tl = "AA"
    · exact Or.inr (Or.inl ⟨h2, by subst h2; decide⟩)
    · by_cases h3 : tl = "AAA"
      · exact Or.inr (Or.inr (Or.inl ⟨h3, by subst h3; decide⟩))
      · refine Or.inr (Or.inr (Or.inr ⟨h1, h2, h3, ?_⟩))
        simp [jsIndexOf, WCAGComplianceChecker.levelOrder,
          Ne.symm h1, Ne.symm h2, Ne.symm h3]

theorem getApplicableCriteria_ok_iff (tl : String)
    (l : List (String × WCAGCriterion)) :
    WCAGComplianceChecker.getApplicableCriteria tl = .ok l ↔
      (jsIndexOf WCAGComplianceChecker.levelOrder tl ≠ -1 ∧
       l = WCAGComplianceChecker.criteria.filter (fun p =>
         jsIndexOf WCAGComplianceChecker.levelOrder p.2.level ≤
           jsIndexOf WCAGComplianceChecker.levelOrder tl)) := by
  unfold WCAGComplianceChecker.getApplicableCriteria
  by_cases h : jsIndexOf WCAGComplianceChecker.levelOrder tl = -1 <;>
    simp [h, eq_comm]

theorem evaluateCompliance_ok_iff (res : EvaluationResult) (tl : String)
    (rep : WCAGComplianceReport) :
    WCAGComplianceChecker.evaluateCompliance res tl = .ok rep ↔
      ∃ app, WCAGComplianceChecker.getApplicableCriteria tl = .ok app ∧
        rep = WCAGComplianceChecker.complianceReportFor res app tl := by
  cases hA : WCAGComplianceChecker.getApplicableCriteria tl <;>
    simp [WCAGComplianceChecker.evaluateCompliance, hA, eq_comm]

theorem calculateOverallScore_eq_roundHalfUp (p f : List WCAGCriterion) :
    WCAGComplianceChecker.calculateOverallScore p f =
      if p.length + f.length = 0 then 0
      else roundHalfUp (100 * p.length) (p.length + f.length) := by
  unfold WCAGComplianceChecker.calculateOverallScore roundHalfUp
  by_cases h : p.length + f.length = 0
  · simp [h]
  · simp only [h, if_false]
    congr 1
    ring

/-- C4: calling the compliance calculator entry point `evaluateCompliance`
with a target level other than `"A"`, `"AA"`, `"AAA"` throws the
`Invalid target level` error instead of defaulting or returning a report. -/
theorem c4_invalid_target_level_throws (res : EvaluationResult)
    (targetLevel : String)
    (h1 : targetLevel ≠ "A") (h2 : targetLevel ≠ "AA") (h3 : targetLevel ≠ "AAA") :
    WCAGComplianceChecker.evaluateCompliance res targetLevel =
      .error ("Invalid target level: " ++ targetLevel) := by
  have hidx : jsIndexOf WCAGComplianceChecker.levelOrder targetLevel = -1 := by
    rcases jsIndexOf_levelOrder_cases targetLevel with ⟨h, _⟩ | ⟨h, _⟩ | ⟨h, _⟩ | ⟨_, _, _, h⟩
    · exact absurd h h1
    · exact absurd h h2
    · exact absurd h h3
    · exact h
  unfold WCAGComplianceChecker.evaluateCompliance
    WCAGComplianceChecker.getApplicableCriteria
  simp [hidx]

theorem c4_invalid_target_level_throws_witness :
    WCAGComplianceChecker.evaluateCompliance emptyEvaluation "AAAA" =
      .error "Invalid target level: AAAA" :=
  c4_invalid_target_level_throws emptyEvaluation "AAAA"
    (by decide) (by decide) (by decide)

/-- C5: for target levels `T1 ≤ T2` in the order `A < AA < AAA` (compared via
their index in `levelOrder`), every criterion applicable at `T1` is applicable
at `T2`. -/
theorem c5_applicability_monotone (t1 t2 : String)
    (l1 l2 : List (String × WCAGCriterion))
    (hle : jsIndexOf WCAGComplianceChecker.levelOrder t1 ≤
      jsIndexOf WCAGComplianceChecker.levelOrder t2)
    (h1 : WCAGComplianceChecker.getApplicableCriteria t1 = .ok l1)
    (h2 : WCAGComplianceChecker.getApplicableCriteria t2 = .ok l2) :
    ∀ x ∈ l1, x ∈ l2 := by
  rw [getApplicableCriteria_ok_iff] at h1 h2
  obtain ⟨-, rfl⟩ := h1
  obtain ⟨-, rfl⟩ := h2
  intro x hx
  rw [List.mem_filter] at hx ⊢
  refine ⟨hx.1, ?_⟩
  have hx2 := hx.2
  simp only [decide_eq_true_eq] at hx2 ⊢
  exact le_trans hx2 hle

theorem c5_applicability_monotone_witness :
    jsIndexOf WCAGComplianceChecker.levelOrder "A" ≤
      jsIndexOf WCAGComplianceChecker.levelOrder "AA" ∧
    ∀ x ∈ applicableLevelA, x ∈ applicableLevelAA :=
  ⟨by decide,
   c5_applicability_monotone "A" "AA" applicableLevelA applicableLevelAA
     (by decide) (by rfl) (by rfl)⟩

/-- C3: for every successfully produced report, `overallScore` is the half-up
rounding of `100 * |passedCriteria| / (|passedCriteria| + |failedCriteria|)`,
and `0` when both lists are empty. -/
theorem c3_overall_score_formula (res : EvaluationResult) (targetLevel : String)
    (rep : WCAGComplianceReport)
    (heval : WCAGComplianceChecker.evaluateCompliance res targetLevel = .ok rep) :
    rep.overallScore =
      if rep.passedCriteria.length + rep.failedCriteria.length = 0 then 0
      else roundHalfUp (100 * rep.passedCriteria.length)
        (rep.passedCriteria.length + rep.failedCriteria.length) := by
  rw [evaluateCompliance_ok_iff] at heval
  obtain ⟨app, -, rfl⟩ := heval
  exact calculateOverallScore_eq_roundHalfUp _ _

theorem c3_overall_score_formula_witness :
    (okReport (WCAGComplianceChecker.evaluateCompliance emptyEvaluation "AA")).overallScore =
      if (okReport (WCAGComplianceChecker.evaluateCompliance emptyEvaluation "AA")).passedCriteria.length +
          (okReport (WCAGComplianceChecker.evaluateCompliance emptyEvaluation "AA")).failedCriteria.length = 0
      then 0
      else roundHalfUp
        (100 * (okReport (WCAGComplianceChecker.evaluateCompliance emptyEvaluation "AA")).passedCriteria.length)
        ((okReport (WCAGComplianceChecker.evaluateCompliance emptyEvaluation "AA")).passedCriteria.length +
          (okReport (WCAGComplianceChecker.evaluateCompliance emptyEvaluation "AA")).failedCriteria.length) :=
  c3_overall_score_formula emptyEvaluation "AA"
    (okReport (WCAGComplianceChecker.evaluateCompliance emptyEvaluation "AA")) (by rfl)

theorem complianceReportFor_passed (res : EvaluationResult)
    (app : List (String × WCAGCriterion)) (tl : String) :
    (WCAGComplianceChecker.complianceReportFor res app tl).passedCriteria =
      (app.filter (fun p =>
        WCAGComplianceChecker.criterionClass res p.1 p.2 = .passed)).map Prod.snd :=
  rfl

theorem complianceReportFor_failed (res : EvaluationResult)
    (app : List (String × WCAGCriterion)) (tl : String) :
    (WCAGComplianceChecker.complianceReportFor res app tl).failedCriteria =
      (app.filter (fun p =>
        WCAGComplianceChecker.criterionClass res p.1 p.2 = .failed)).map Prod.snd :=
  rfl

theorem complianceReportFor_notApplicable (res : EvaluationResult)
    (app : List (String × WCAGCriterion)) (tl : String) :
    (WCAGComplianceChecker.complianceReportFor res app tl).notApplicableCriteria =
      (app.filter (fun p =>
        WCAGComplianceChecker.criterionClass res p.1 p.2 = .notApplicable)).map Prod.snd :=
  rfl

theorem complianceReportFor_level (res : EvaluationResult)
    (app : List (String × WCAGCriterion)) (tl : String) :
    (WCAGComplianceChecker.complianceReportFor res app tl).level =
      WCAGComplianceChecker.calculateComplianceLevel
        (WCAGComplianceChecker.complianceReportFor res app tl).passedCriteria
        (WCAGComplianceChecker.complianceReportFor res app tl).failedCriteria tl :=
  rfl

theorem criteria_key_eq_id :
    ∀ p ∈ WCAGComplianceChecker.criteria, p.1 = p.2.id := by
  decide

theorem class_filter_disjoint (res : EvaluationResult)
    (app : List (String × WCAGCriterion))
    (hkey : ∀ p ∈ app, p.1 = p.2.id)
    (k₁ k₂ : WCAGComplianceChecker.CriterionClass) (hne : k₁ ≠ k₂)
    (c : WCAGCriterion)
    (h1 : c ∈ (app.filter (fun p =>
      WCAGComplianceChecker.criterionClass res p.1 p.2 = k₁)).map Prod.snd)
    (h2 : c ∈ (app.filter (fun p =>
      WCAGComplianceChecker.criterionClass res p.1 p.2 = k₂)).map Prod.snd) :
    False := by
  rw [List.mem_map] at h1 h2
  obtain ⟨p, hp, hpc⟩ := h1
  obtain ⟨q, hq, hqc⟩ := h2
  rw [List.mem_filter] at hp hq
  have hp1 : p.1 = p.2.id := hkey p hp.1
  have hq1 : q.1 = q.2.id := hkey q hq.1
  have hcp := hp.2
  have hcq := hq.2
  simp only [decide_eq_true_eq] at hcp hcq
  apply hne
  rw [← hcp, ← hcq, hp1, hq1, hpc, hqc]

/-- C1: for every evaluation result and valid target level, each criterion of
the applicable set appears in at least one of the report's three lists, and
the three lists are pairwise disjoint — so each applicable criterion is
classified exactly once. -/
theorem c1_applicable_set_partition (res : EvaluationResult)
    (targetLevel : String) (rep : WCAGComplianceReport)
    (app : List (String × WCAGCriterion))
    (heval : WCAGComplianceChecker.evaluateCompliance res targetLevel = .ok rep)
    (happ : WCAGComplianceChecker.getApplicableCriteria targetLevel = .ok app) :
    (∀ c, c ∈ app.map Prod.snd ↔
      (c ∈ rep.passedCriteria ∨ c ∈ rep.failedCriteria ∨
        c ∈ rep.notApplicableCriteria))
    ∧ (∀ c ∈ rep.passedCriteria, c ∉ rep.failedCriteria)
    ∧ (∀ c ∈ rep.passedCriteria, c ∉ rep.notApplicableCriteria)
    ∧ (∀ c ∈ rep.failedCriteria, c ∉ rep.notApplicableCriteria) := by
  rw [evaluateCompliance_ok_iff] at heval
  obtain ⟨app', happ', hrep⟩ := heval
  have happeq : app' = app := by
    rw [happ'] at happ
    injection happ
  subst happeq
  subst hrep
  have hkey : ∀ p ∈ app', p.1 = p.2.id := by
    rw [getApplicableCriteria_ok_iff] at happ'
    obtain ⟨-, rfl⟩ := happ'
    intro p hp
    exact criteria_key_eq_id p (List.mem_filter.mp hp).1
  rw [complianceReportFor_passed, complianceReportFor_failed,
    complianceReportFor_notApplicable]
  refine ⟨?_, ?_, ?_, ?_⟩
  · intro c
    constructor
    · intro hc
      rw [List.mem_map] at hc
      obtain ⟨p, hp, rfl⟩ := hc
      cases h : WCAGComplianceChecker.criterionClass res p.1 p.2 with
      | failed =>
        exact Or.inr (Or.inl (List.mem_map_of_mem _
          (List.mem_filter.mpr ⟨hp, by simp [h]⟩)))
      | passed =>
        exact Or.inl (List.mem_map_of_mem _
          (List.mem_filter.mpr ⟨hp, by simp [h]⟩))
      | notApplicable =>
        exact Or.inr (Or.inr (List.mem_map_of_mem _
          (List.mem_filter.mpr ⟨hp, by simp [h]⟩)))
    · rintro (hc | hc | hc) <;> rw [List.mem_map] at hc ⊢ <;>
        obtain ⟨p, hp, rfl⟩ := hc <;>
        exact ⟨p, (List.mem_filter.mp hp).1, rfl⟩
  · intro c h1 h2
    exact class_filter_disjoint res app' hkey _ _ (by decide) c h1 h2
  · intro c h1 h2
    exact class_filter_disjoint res app' hkey _ _ (by decide) c h1 h2
  · intro c h1 h2
    exact class_filter_disjoint res app' hkey _ _ (by decide) c h1 h2

theorem c1_applicable_set_partition_witness :
    (∀ c, c ∈ applicableLevelAA.map Prod.snd ↔
      (c ∈ (okReport (WCAGComplianceChecker.evaluateCompliance evalWithLevelAFailure "AA")).passedCriteria ∨
        c ∈ (okReport (WCAGComplianceChecker.evaluateCompliance evalWithLevelAFailure "AA")).failedCriteria ∨
        c ∈ (okReport (WCAGComplianceChecker.evaluateCompliance evalWithLevelAFailure "AA")).notApplicableCriteria))
    ∧ (∀ c ∈ (okReport (WCAGComplianceChecker.evaluateCompliance evalWithLevelAFailure "AA")).passedCriteria,
        c ∉ (okReport (WCAGComplianceChecker.evaluateCompliance evalWithLevelAFailure "AA")).failedCriteria)
    ∧ (∀ c ∈ (okReport (WCAGComplianceChecker.evaluateCompliance evalWithLevelAFailure "AA")).passedCriteria,
        c ∉ (okReport (WCAGComplianceChecker.evaluateCompliance evalWithLevelAFailure "AA")).notApplicableCriteria)
    ∧ (∀ c ∈ (okReport (WCAGComplianceChecker.evaluateCompliance evalWithLevelAFailure "AA")).failedCriteria,
        c ∉ (okReport (WCAGComplianceChecker.evaluateCompliance evalWithLevelAFailure "AA")).notApplicableCriteria) :=
  c1_applicable_set_partition evalWithLevelAFailure "AA"
    (okReport (WCAGComplianceChecker.evaluateCompliance evalWithLevelAFailure "AA"))
    applicableLevelAA (by rfl) (by rfl)

theorem firstFailureVerdict_A_cons (F : List WCAGCriterion) (rest : List String)
    (h : 0 < (F.filter (fun c => c.level = "A")).length) :
    WCAGComplianceChecker.firstFailureVerdict F ("A" :: rest) = some "None" := by
  unfold WCAGComplianceChecker.firstFailureVerdict
  simp [h]

theorem calculateComplianceLevel_none_of_A_failure (P F : List WCAGCriterion)
    (tl : String)
    (hvalid : jsIndexOf WCAGComplianceChecker.levelOrder tl ≠ -1)
    (hfail : ∃ c ∈ F, c.level = "A") :
    WCAGComplianceChecker.calculateComplianceLevel P F tl = "None" := by
  obtain ⟨c, hc, hcl⟩ := hfail
  have hpos : 0 < (F.filter (fun c => c.level = "A")).length := by
    have hm : c ∈ F.filter (fun c => c.level = "A") :=
      List.mem_filter.mpr ⟨hc, by simp [hcl]⟩
    exact List.length_pos.mpr (List.ne_nil_of_mem hm)
  unfold WCAGComplianceChecker.calculateComplianceLevel
  rcases jsIndexOf_levelOrder_cases tl with ⟨-, hi⟩ | ⟨-, hi⟩ | ⟨-, hi⟩ | ⟨-, -, -, hi⟩ <;>
    [skip; skip; skip; exact absurd hi hvalid] <;>
    rw [hi] <;>
    simp [WCAGComplianceChecker.levelOrder, firstFailureVerdict_A_cons F _ hpos]

/-- C2: if any applicable criterion at level A is classified as failed, the
report's `level` is `"None"`, regardless of AA/AAA outcomes. -/
theorem c2_level_a_failure_gives_none (res : EvaluationResult)
    (targetLevel : String) (rep : WCAGComplianceReport)
    (heval : WCAGComplianceChecker.evaluateCompliance res targetLevel = .ok rep)
    (hfail : ∃ c ∈ rep.failedCriteria, c.level = "A") :
    rep.level = "None" := by
  rw [evaluateCompliance_ok_iff] at heval
  obtain ⟨app, happ, rfl⟩ := heval
  rw [getApplicableCriteria_ok_iff] at happ
  rw [complianceReportFor_level]
  exact calculateComplianceLevel_none_of_A_failure _ _ _ happ.1 hfail

theorem c2_level_a_failure_gives_none_witness :
    (okReport (WCAGComplianceChecker.evaluateCompliance evalWithLevelAFailure "AA")).level = "None" :=
  c2_level_a_failure_gives_none evalWithLevelAFailure "AA"
    (okReport (WCAGComplianceChecker.evaluateCompliance evalWithLevelAFailure "AA"))
    (by rfl) (by decide)

theorem imagesAltTextCheck_eq_filter_map (l : List Elem) :
    (l.filter (fun e => Elem.tag e = "img")).filterMap (fun e =>
      match Elem.attr? e "alt" with
      | some _ => none
      | none =>
        match Elem.attr? e "role" with
        | some r => if jsIncludes r "presentation" then none
                    else some (AccessibilityEvaluator.imgAltIssue e)
        | none => some (AccessibilityEvaluator.imgAltIssue e)) =
    (l.filter (fun e =>
      Elem.tag e = "img" && (Elem.attr? e "alt").isNone &&
      !(match Elem.attr? e "role" with
        | some r => jsIncludes r "presentation"
        | none => false))).map AccessibilityEvaluator.imgAltIssue := by
  induction l with
  | nil => rfl
  | cons e es ih =>
    simp only [List.filter_cons]
    by_cases htag : Elem.tag e = "img"
    · cases halt : Elem.attr? e "alt" with
      | none =>
        cases hrole : Elem.attr? e "role" with
        | none => simp [htag, halt, hrole, ih]
        | some r =>
          by_cases hinc : jsIncludes r "presentation"
          · simp [htag, halt, hrole, hinc, ih]
          · simp [htag, halt, hrole, hinc, ih]
      | some a => simp [htag, halt, ih]
    · simp [htag, ih]

/-- C6: the `images-alt-text` rule emits exactly the issue `imgAltIssue e`
(an error with rule `WCAG 1.1.1`, level `A`, impact `critical`) for each `img`
element with no `alt` attribute and no role containing `"presentation"`, and
nothing for any other element — in particular an `img` with `alt=""` (the
`alt` attribute present but empty) yields no issue, since the filter requires
the `alt` attribute to be absent. -/
theorem c6_images_alt_text_rule (d : Doc) :
    AccessibilityEvaluator.imagesAltTextCheck d =
      ((Doc.elems d).filter (fun e =>
        Elem.tag e = "img" && (Elem.attr? e "alt").isNone &&
        !(match Elem.attr? e "role" with
          | some r => jsIncludes r "presentation"
          | none => false))).map AccessibilityEvaluator.imgAltIssue
    ∧ ∀ i ∈ AccessibilityEvaluator.imagesAltTextCheck d,
        i.type = "error" ∧ i.rule = "WCAG 1.1.1" ∧
        i.level = some "A" ∧ i.impact = some "critical" := by
  have h1 : AccessibilityEvaluator.imagesAltTextCheck d =
      ((Doc.elems d).filter (fun e =>
        Elem.tag e = "img" && (Elem.attr? e "alt").isNone &&
        !(match Elem.attr? e "role" with
          | some r => jsIncludes r "presentation"
          | none => false))).map AccessibilityEvaluator.imgAltIssue := by
    unfold AccessibilityEvaluator.imagesAltTextCheck
    exact imagesAltTextCheck_eq_filter_map (Doc.elems d)
  refine ⟨h1, ?_⟩
  intro i hi
  rw [h1] at hi
  rw [List.mem_map] at hi
  obtain ⟨e, -, rfl⟩ := hi
  exact ⟨rfl, rfl, rfl, rfl⟩

theorem imagesAltTextCheck_standard (d : Doc) :
    ∀ i ∈ AccessibilityEvaluator.imagesAltTextCheck d, i.standard = "WCAG" := by
  intro i hi
  unfold AccessibilityEvaluator.imagesAltTextCheck at hi
  rw [imagesAltTextCheck_eq_filter_map, List.mem_map] at hi
  obtain ⟨e, -, rfl⟩ := hi
  rfl

theorem headingsLoop_standard (l : List (Elem × Nat)) :
    ∀ last : Nat, ∀ i ∈ AccessibilityEvaluator.headingsLoop last l,
      i.standard = "WCAG" := by
  induction l with
  | nil =>
    intro last i hi
    simp [AccessibilityEvaluator.headingsLoop] at hi
  | cons p rest ih =>
    intro last i hi
    obtain ⟨e, lv⟩ := p
    unfold AccessibilityEvaluator.headingsLoop at hi
    rw [List.mem_append] at hi
    rcases hi with hi | hi
    · by_cases hc : last ≠ 0 ∧ lv > last + 1
      · rw [if_pos hc, List.mem_singleton] at hi
        subst hi
        rfl
      · rw [if_neg hc] at hi
        cases hi
    · exact ih lv i hi

theorem formLabelsCheck_standard (d : Doc) :
    ∀ i ∈ AccessibilityEvaluator.formLabelsCheck d, i.standard = "WCAG" := by
  intro i hi
  unfold AccessibilityEvaluator.formLabelsCheck at hi
  rw [List.mem_filterMap] at hi
  obtain ⟨e, -, he⟩ := hi
  dsimp only [] at he
  split_ifs at he
  injection he with he
  subst he
  rfl

theorem ariaRequiredAttrCheck_standard (d : Doc) :
    ∀ i ∈ AccessibilityEvaluator.ariaRequiredAttrCheck d, i.standard = "ARIA" := by
  intro i hi
  unfold AccessibilityEvaluator.ariaRequiredAttrCheck at hi
  rw [List.mem_flatMap] at hi
  obtain ⟨e, -, he⟩ := hi
  cases hrole : Elem.attr? e "role" with
  | none => rw [hrole] at he; simp at he
  | some role =>
    rw [hrole] at he
    dsimp only [] at he
    by_cases hne : role = ""
    · rw [if_neg (by simp [hne])] at he
      cases he
    · rw [if_pos hne] at he
      cases hfind : (AccessibilityEvaluator.requiredAttributesTable.find?
          (fun p => p.1 = role)).map Prod.snd with
      | none => rw [hfind] at he; cases he
      | some attrs =>
        rw [hfind] at he
        dsimp only [] at he
        rw [List.mem_filterMap] at he
        obtain ⟨attr, -, hattr⟩ := he
        split_ifs at hattr
        injection hattr with hattr
        subst hattr
        rfl

theorem ariaValidValuesCheck_standard (d : Doc) :
    ∀ i ∈ AccessibilityEvaluator.ariaValidValuesCheck d, i.standard = "ARIA" := by
  intro i hi
  unfold AccessibilityEvaluator.ariaValidValuesCheck at hi
  rw [List.mem_flatMap] at hi
  obtain ⟨p, -, he⟩ := hi
  rw [List.mem_filterMap] at he
  obtain ⟨e, -, hee⟩ := he
  cases hval : Elem.attr? e p.1 with
  | none => rw [hval] at hee; simp at hee
  | some value =>
    rw [hval] at hee
    dsimp only [] at hee
    split_ifs at hee
    injection hee with hee
    subst hee
    rfl

theorem runRuleGroup_foldl_mem (d : Doc) (std : String)
    (rules : List (String × (Doc → List AccessibilityIssue))) :
    ∀ acc : List AccessibilityIssue × List String,
      ∀ i ∈ (rules.foldl (fun acc r =>
        let ruleIssues := r.2 d
        if ruleIssues.length = 0 then (acc.1, acc.2 ++ [std ++ ": " ++ r.1])
        else (acc.1 ++ ruleIssues, acc.2)) acc).1,
        i ∈ acc.1 ∨ ∃ r ∈ rules, i ∈ r.2 d := by
  induction rules with
  | nil => intro acc i hi; exact Or.inl hi
  | cons r rs ih =>
    intro acc i hi
    rw [List.foldl_cons] at hi
    rcases ih _ i hi with hacc | ⟨r', hr', hir'⟩
    · dsimp only [] at hacc
      by_cases hlen : (r.2 d).length = 0
      · rw [if_pos hlen] at hacc
        exact Or.inl hacc
      · rw [if_neg hlen] at hacc
        rcases List.mem_append.mp hacc with h | h
        · exact Or.inl h
        · exact Or.inr ⟨r, List.mem_cons_self r rs, h⟩
    · exact Or.inr ⟨r', List.mem_cons_of_mem r hr', hir'⟩

theorem runRuleGroup_mem (d : Doc) (std : String)
    (rules : List (String × (Doc → List AccessibilityIssue))) :
    ∀ i ∈ (AccessibilityEvaluator.runRuleGroup std rules d).1,
      ∃ r ∈ rules, i ∈ r.2 d := by
  intro i hi
  unfold AccessibilityEvaluator.runRuleGroup at hi
  rcases runRuleGroup_foldl_mem d std rules ([], []) i hi with h | h
  · cases h
  · exact h

/-- C8: when the axe-core collaborator fails (`Except.error`), `evaluateHTML`
returns the same complete result as a run with zero axe issues: the inner
`runAxeCore` catch already converts a rejecting `axe.run` into an empty list,
the issue list consists exactly of the enhanced WCAG- and ARIA-rule issues,
and no issue carries `standard = "AXE"`. -/
theorem c8_axe_failure_isolated (d : Doc) (e : String) :
    AccessibilityEvaluator.evaluateHTML d (.error e) =
      AccessibilityEvaluator.evaluateHTML d (.ok [])
    ∧ AccessibilityEvaluator.runAxeCore (.error e) = .ok []
    ∧ (AccessibilityEvaluator.evaluateHTML d (.error e)).issues =
        ((AccessibilityEvaluator.runRuleGroup "WCAG" AccessibilityEvaluator.wcagRules d).1
          ++ (AccessibilityEvaluator.runRuleGroup "ARIA" AccessibilityEvaluator.ariaRules d).1).map
          AccessibilityEvaluator.enhanceIssue
    ∧ ∀ i ∈ (AccessibilityEvaluator.evaluateHTML d (.error e)).issues,
        i.standard ≠ "AXE" := by
  have hissues : (AccessibilityEvaluator.evaluateHTML d (.error e)).issues =
      ((AccessibilityEvaluator.runRuleGroup "WCAG" AccessibilityEvaluator.wcagRules d).1
        ++ (AccessibilityEvaluator.runRuleGroup "ARIA" AccessibilityEvaluator.ariaRules d).1).map
        AccessibilityEvaluator.enhanceIssue := by
    unfold AccessibilityEvaluator.evaluateHTML
    simp
  refine ⟨rfl, rfl, hissues, ?_⟩
  intro i hi
  rw [hissues, List.mem_map] at hi
  obtain ⟨j, hj, rfl⟩ := hi
  have hjstd : j.standard = "WCAG" ∨ j.standard = "ARIA" := by
    rcases List.mem_append.mp hj with hjw | hja
    · obtain ⟨r, hr, hjr⟩ := runRuleGroup_mem d "WCAG"
        AccessibilityEvaluator.wcagRules j hjw
      left
      simp only [AccessibilityEvaluator.wcagRules, List.mem_cons,
        List.not_mem_nil, or_false] at hr
      rcases hr with rfl | rfl | rfl
      · exact imagesAltTextCheck_standard d j hjr
      · exact headingsLoop_standard _ 0 j hjr
      · exact formLabelsCheck_standard d j hjr
    · obtain ⟨r, hr, hjr⟩ := runRuleGroup_mem d "ARIA"
        AccessibilityEvaluator.ariaRules j hja
      right
      simp only [AccessibilityEvaluator.ariaRules, List.mem_cons,
        List.not_mem_nil, or_false] at hr
      rcases hr with rfl | rfl
      · exact ariaRequiredAttrCheck_standard d j hjr
      · exact ariaValidValuesCheck_standard d j hjr
  show (AccessibilityEvaluator.enhanceIssue j).standard ≠ "AXE"
  unfold AccessibilityEvaluator.enhanceIssue
  rcases hjstd with h | h <;> rw [h] <;> decide

/-- C9: the ARIA validator is a pure function of the document — it reads only
the document and the constant role/property catalogs and mutates no validator
state — so two runs of `validate` on the same unchanged input produce
identical issue lists, valid usages, and statistics. -/
theorem c9_validate_deterministic (d : Doc) (r1 r2 : ARIAValidationResult)
    (h1 : r1 = ARIAValidator.validate d) (h2 : r2 = ARIAValidator.validate d) :
    r1.issues = r2.issues ∧ r1.validUsages = r2.validUsages ∧
      r1.statistics = r2.statistics := by
  subst h1
  subst h2
  exact ⟨rfl, rfl, rfl⟩

theorem c9_validate_deterministic_witness :
    (ARIAValidator.validate docTwoNavEmptyLabels).issues =
        (ARIAValidator.validate docTwoNavEmptyLabels).issues ∧
      (ARIAValidator.validate docTwoNavEmptyLabels).validUsages =
        (ARIAValidator.validate docTwoNavEmptyLabels).validUsages ∧
      (ARIAValidator.validate docTwoNavEmptyLabels).statistics =
        (ARIAValidator.validate docTwoNavEmptyLabels).statistics :=
  c9_validate_deterministic docTwoNavEmptyLabels
    (ARIAValidator.validate docTwoNavEmptyLabels)
    (ARIAValidator.validate docTwoNavEmptyLabels) rfl rfl

/-- C10: the `statesUsed` statistic of the ARIA validator is initialized empty
and no validation step ever adds to it, so it is empty for every document —
including documents that do carry state attributes such as `aria-checked` or
`aria-hidden`. -/
theorem c10_states_used_always_empty (d : Doc) :
    (ARIAValidator.validate d).statistics.statesUsed = [] :=
  rfl

theorem ne_of_take_head (a rest M : String)
    (h : M.data.take a.data.length ≠ a.data) : a ++ rest ≠ M := by
  intro he
  apply h
  rw [← he, String.data_append]
  exact List.take_left a.data rest.data

theorem roleIssuesFor_message (p : Elem × List Elem) :
    ∀ i ∈ ARIAValidator.roleIssuesFor p,
      (∃ r, i.message = "Invalid ARIA role: \"" ++ r ++ "\"") ∨
      (∃ pr r, i.message =
        "Missing required property \"" ++ pr ++ "\" for role=\"" ++ r ++ "\"") ∨
      (∃ r rest, i.message =
        "Role \"" ++ r ++ "\" must be contained within one of: " ++ rest) := by
  intro i hi
  unfold ARIAValidator.roleIssuesFor at hi
  cases hrole : Elem.attr? p.1 "role" with
  | none => rw [hrole] at hi; cases hi
  | some role =>
    rw [hrole] at hi
    dsimp only [] at hi
    cases hlook : ARIAValidator.lookupRole role with
    | none =>
      rw [hlook] at hi
      dsimp only [] at hi
      rw [List.mem_singleton] at hi
      subst hi
      exact Or.inl ⟨role, rfl⟩
    | some roleSpec =>
      rw [hlook] at hi
      dsimp only [] at hi
      rw [List.mem_append] at hi
      rcases hi with hi | hi
      · rw [List.mem_filterMap] at hi
        obtain ⟨prop, -, hprop⟩ := hi
        split_ifs at hprop
        injection hprop with hprop
        subst hprop
        exact Or.inr (Or.inl ⟨prop, role, rfl⟩)
      · cases hpar : roleSpec.requiredParent with
        | none => rw [hpar] at hi; cases hi
        | some requiredParent =>
          rw [hpar] at hi
          dsimp only [] at hi
          split_ifs at hi
          · rw [List.mem_singleton] at hi
            subst hi
            exact Or.inr (Or.inr ⟨role, jsJoin ", " requiredParent, rfl⟩)
          · cases hi

theorem propIssuesFor_message (d : Doc) (prop : String) :
    ∀ i ∈ ARIAValidator.propIssuesFor d prop,
      i.message = "Empty value for " ++ prop ∨
      (∃ id, i.message =
        "aria-labelledby references non-existent ID: \"" ++ id ++ "\"") := by
  intro i hi
  unfold ARIAValidator.propIssuesFor at hi
  rw [List.mem_flatMap] at hi
  obtain ⟨e, -, he⟩ := hi
  dsimp only [] at he
  rw [List.mem_append] at he
  rcases he with he | he
  · split_ifs at he
    · rw [List.mem_singleton] at he
      subst he
      exact Or.inl rfl
    · cases he
  · split_ifs at he
    · rw [List.mem_filterMap] at he
      obtain ⟨id, -, hid⟩ := he
      split_ifs at hid
      injection hid with hid
      subst hid
      exact Or.inr ⟨id, rfl⟩
    · cases he

theorem redundantRoleIssues_message (d : Doc) :
    ∀ i ∈ ARIAValidator.redundantRoleIssues d,
      ∃ t, i.message = "Redundant ARIA role on " ++ t ++ " element" := by
  intro i hi
  unfold ARIAValidator.redundantRoleIssues at hi
  rw [List.mem_map] at hi
  obtain ⟨e, -, rfl⟩ := hi
  exact ⟨Elem.tag e, rfl⟩

theorem ariaHiddenIssues_message (d : Doc) :
    ∀ i ∈ ARIAValidator.ariaHiddenIssues d,
      i.message =
        "aria-hidden=\"true\" on focusable element or container with focusable children" := by
  intro i hi
  unfold ARIAValidator.ariaHiddenIssues at hi
  rw [List.mem_filterMap] at hi
  obtain ⟨e, -, he⟩ := hi
  split_ifs at he
  injection he with he
  subst he
  rfl

theorem map_enhanceIssue (l : List ARIAValidationIssue) :
    l.map ARIAValidator.enhanceIssue = l := by
  have : ARIAValidator.enhanceIssue = fun i => i := rfl
  rw [this, List.map_id']

theorem validate_issues (d : Doc) :
    (ARIAValidator.validate d).issues =
      ((ARIAValidator.roleNodes d).flatMap ARIAValidator.roleIssuesFor
        ++ ARIAValidator.allPropIssues d
        ++ ARIAValidator.redundantRoleIssues d
        ++ ARIAValidator.ariaHiddenIssues d
        ++ ARIAValidator.landmarkIssues d).map ARIAValidator.enhanceIssue :=
  rfl

theorem validate_countP_eq_landmark_countP (d : Doc) (M : String)
    (q : ARIAValidationIssue → Bool)
    (hq : ∀ i, q i = true → i.message = M)
    (hrole : ∀ r, "Invalid ARIA role: \"" ++ r ++ "\"" ≠ M)
    (hmiss : ∀ pr r,
      "Missing required property \"" ++ pr ++ "\" for role=\"" ++ r ++ "\"" ≠ M)
    (hcont : ∀ r rest,
      "Role \"" ++ r ++ "\" must be contained within one of: " ++ rest ≠ M)
    (hempty : ∀ prop, "Empty value for " ++ prop ≠ M)
    (href : ∀ id,
      "aria-labelledby references non-existent ID: \"" ++ id ++ "\"" ≠ M)
    (hred : ∀ t, "Redundant ARIA role on " ++ t ++ " element" ≠ M)
    (hhid : "aria-hidden=\"true\" on focusable element or container with focusable children" ≠ M) :
    (ARIAValidator.validate d).issues.countP q =
      (ARIAValidator.landmarkIssues d).countP q := by
  rw [validate_issues, map_enhanceIssue]
  rw [List.countP_append, List.countP_append, List.countP_append,
    List.countP_append]
  have hz1 : ((ARIAValidator.roleNodes d).flatMap ARIAValidator.roleIssuesFor).countP q = 0 := by
    rw [List.countP_eq_zero]
    intro i hi hqi
    rw [List.mem_flatMap] at hi
    obtain ⟨p, -, hip⟩ := hi
    have hm := hq i hqi
    rcases roleIssuesFor_message p i hip with ⟨r, hmsg⟩ | ⟨pr, r, hmsg⟩ | ⟨r, rest, hmsg⟩
    · exact hrole r (hmsg.symm.trans hm)
    · exact hmiss pr r (hmsg.symm.trans hm)
    · exact hcont r rest (hmsg.symm.trans hm)
  have hz2 : (ARIAValidator.allPropIssues d).countP q = 0 := by
    rw [List.countP_eq_zero]
    intro i hi hqi
    unfold ARIAValidator.allPropIssues at hi
    rw [List.mem_flatMap] at hi
    obtain ⟨prop, -, hip⟩ := hi
    have hm := hq i hqi
    rcases propIssuesFor_message d prop i hip with hmsg | ⟨id, hmsg⟩
    · exact hempty prop (hmsg.symm.trans hm)
    · exact href id (hmsg.symm.trans hm)
  have hz3 : (ARIAValidator.redundantRoleIssues d).countP q = 0 := by
    rw [List.countP_eq_zero]
    intro i hi hqi
    obtain ⟨t, hmsg⟩ := redundantRoleIssues_message d i hi
    exact hred t (hmsg.symm.trans (hq i hqi))
  have hz4 : (ARIAValidator.ariaHiddenIssues d).countP q = 0 := by
    rw [List.countP_eq_zero]
    intro i hi hqi
    exact hhid ((ariaHiddenIssues_message d i hi).symm.trans (hq i hqi))
  rw [hz1, hz2, hz3, hz4]
  simp

theorem landmarkIssuesFor_countP_main (d : Doc)
    (q : ARIAValidationIssue → Bool) :
    (ARIAValidator.landmarkIssuesFor d "main").countP q =
      if 1 < (elemsWithAttrVal d "role" "main").length ∧
          q (ARIAValidator.landmarkMainError "main") = true
      then 1 else 0 := by
  unfold ARIAValidator.landmarkIssuesFor
  by_cases h1 : 1 < (elemsWithAttrVal d "role" "main").length
  · rw [if_pos ⟨h1, rfl⟩]
    cases hq : q (ARIAValidator.landmarkMainError "main")
    · simp [hq, h1]
    · simp [hq, h1]
  · rw [if_neg (by intro h; exact h1 h.1), if_neg (by exact h1)]
    simp [h1]

theorem landmarkIssuesFor_countP_of_ne_main (d : Doc) (lm : String)
    (q : ARIAValidationIssue → Bool) (hne : lm ≠ "main") :
    (ARIAValidator.landmarkIssuesFor d lm).countP q =
      if (1 < (elemsWithAttrVal d "role" lm).length ∧
          0 < ((elemsWithAttrVal d "role" lm).filter (fun e =>
            !(jsTruthy (Elem.attr? e "aria-label")) &&
            !(jsTruthy (Elem.attr? e "aria-labelledby")))).length) ∧
        q (ARIAValidator.landmarkWarning lm) = true
      then 1 else 0 := by
  unfold ARIAValidator.landmarkIssuesFor
  rw [if_neg (by intro h; exact hne h.2)]
  by_cases h1 : 1 < (elemsWithAttrVal d "role" lm).length
  · rw [if_pos h1]
    by_cases h2 : 0 < ((elemsWithAttrVal d "role" lm).filter (fun e =>
        !(jsTruthy (Elem.attr? e "aria-label")) &&
        !(jsTruthy (Elem.attr? e "aria-labelledby")))).length
    · rw [if_pos h2]
      cases hq : q (ARIAValidator.landmarkWarning lm)
      · simp [hq, h1, h2]
      · simp [hq, h1, h2]
    · rw [if_neg h2]
      simp [h1, h2]
  · rw [if_neg h1]
    simp [h1]

theorem filter_length_pos_iff_any {α : Type} (l : List α) (p : α → Bool) :
    0 < (l.filter p).length ↔ l.any p := by
  rw [List.length_pos, Ne, List.filter_eq_nil_iff]
  simp [List.any_eq_true]

theorem validate_countP_msg (d : Doc) (ty M : String)
    (hrole : ∀ r, "Invalid ARIA role: \"" ++ r ++ "\"" ≠ M)
    (hmiss : ∀ pr r,
      "Missing required property \"" ++ pr ++ "\" for role=\"" ++ r ++ "\"" ≠ M)
    (hcont : ∀ r rest,
      "Role \"" ++ r ++ "\" must be contained within one of: " ++ rest ≠ M)
    (hempty : ∀ prop, "Empty value for " ++ prop ≠ M)
    (href : ∀ id,
      "aria-labelledby references non-existent ID: \"" ++ id ++ "\"" ≠ M)
    (hred : ∀ t, "Redundant ARIA role on " ++ t ++ " element" ≠ M)
    (hhid : "aria-hidden=\"true\" on focusable element or container with focusable children" ≠ M) :
    (ARIAValidator.validate d).issues.countP (fun i =>
        i.type = ty && i.message = M) =
      (ARIAValidator.landmarkIssues d).countP (fun i =>
        i.type = ty && i.message = M) :=
  validate_countP_eq_landmark_countP d M _
    (by intro i h; simp at h; exact h.2)
    hrole hmiss hcont hempty href hred hhid

theorem landmark_main_error_count (d : Doc) :
    (ARIAValidator.validate d).issues.countP (fun i =>
      i.type = "error" && i.message = "Multiple main landmarks found") =
      if 1 < (elemsWithAttrVal d "role" "main").length then 1 else 0 := by
  rw [validate_countP_msg d "error" "Multiple main landmarks found"
    (by intro r; simp only [String.append_assoc]; exact ne_of_take_head _ _ _ (by decide))
    (by intro pr r; simp only [String.append_assoc]; exact ne_of_take_head _ _ _ (by decide))
    (by intro r rest; simp only [String.append_assoc]; exact ne_of_take_head _ _ _ (by decide))
    (by intro prop; exact ne_of_take_head _ _ _ (by decide))
    (by intro id; simp only [String.append_assoc]; exact ne_of_take_head _ _ _ (by decide))
    (by intro t; simp only [String.append_assoc]; exact ne_of_take_head _ _ _ (by decide))
    (by decide)]
  unfold ARIAValidator.landmarkIssues ARIAValidator.landmarks
  rw [List.flatMap_cons, List.flatMap_cons, List.flatMap_cons, List.flatMap_cons,
    List.flatMap_cons, List.flatMap_nil, List.append_nil]
  rw [List.countP_append, List.countP_append, List.countP_append,
    List.countP_append]
  rw [landmarkIssuesFor_countP_main,
    landmarkIssuesFor_countP_of_ne_main d "navigation" _ (by decide),
    landmarkIssuesFor_countP_of_ne_main d "complementary" _ (by decide),
    landmarkIssuesFor_countP_of_ne_main d "banner" _ (by decide),
    landmarkIssuesFor_countP_of_ne_main d "contentinfo" _ (by decide)]
  simp [ARIAValidator.landmarkMainError, ARIAValidator.landmarkWarning]

theorem landmark_warning_count_navigation (d : Doc) :
    (ARIAValidator.validate d).issues.countP (fun i =>
      i.type = "warning" && i.message = "Multiple navigation landmarks without unique labels") =
      if 1 < (elemsWithAttrVal d "role" "navigation").length ∧
          (elemsWithAttrVal d "role" "navigation").any (fun e =>
            !(jsTruthy (Elem.attr? e "aria-label")) &&
            !(jsTruthy (Elem.attr? e "aria-labelledby")))
      then 1 else 0 := by
  rw [validate_countP_msg d "warning" "Multiple navigation landmarks without unique labels"
    (by intro r; simp only [String.append_assoc]; exact ne_of_take_head _ _ _ (by decide))
    (by intro pr r; simp only [String.append_assoc]; exact ne_of_take_head _ _ _ (by decide))
    (by intro r rest; simp only [String.append_assoc]; exact ne_of_take_head _ _ _ (by decide))
    (by intro prop; exact ne_of_take_head _ _ _ (by decide))
    (by intro id; simp only [String.append_assoc]; exact ne_of_take_head _ _ _ (by decide))
    (by intro t; simp only [String.append_assoc]; exact ne_of_take_head _ _ _ (by decide))
    (by decide)]
  unfold ARIAValidator.landmarkIssues ARIAValidator.landmarks
  rw [List.flatMap_cons, List.flatMap_cons, List.flatMap_cons, List.flatMap_cons,
    List.flatMap_cons, List.flatMap_nil, List.append_nil]
  rw [List.countP_append, List.countP_append, List.countP_append,
    List.countP_append]
  rw [landmarkIssuesFor_countP_main,
    landmarkIssuesFor_countP_of_ne_main d "navigation" _ (by decide),
    landmarkIssuesFor_countP_of_ne_main d "complementary" _ (by decide),
    landmarkIssuesFor_countP_of_ne_main d "banner" _ (by decide),
    landmarkIssuesFor_countP_of_ne_main d "contentinfo" _ (by decide)]
  simp [ARIAValidator.landmarkMainError, ARIAValidator.landmarkWarning,
    filter_length_pos_iff_any]

theorem landmark_warning_count_complementary (d : Doc) :
    (ARIAValidator.validate d).issues.countP (fun i =>
      i.type = "warning" && i.message = "Multiple complementary landmarks without unique labels") =
      if 1 < (elemsWithAttrVal d "role" "complementary").length ∧
          (elemsWithAttrVal d "role" "complementary").any (fun e =>
            !(jsTruthy (Elem.attr? e "aria-label")) &&
            !(jsTruthy (Elem.attr? e "aria-labelledby")))
      then 1 else 0 := by
  rw [validate_countP_msg d "warning" "Multiple complementary landmarks without unique labels"
    (by intro r; simp only [String.append_assoc]; exact ne_of_take_head _ _ _ (by decide))
    (by intro pr r; simp only [String.append_assoc]; exact ne_of_take_head _ _ _ (by decide))
    (by intro r rest; simp only [String.append_assoc]; exact ne_of_take_head _ _ _ (by decide))
    (by intro prop; exact ne_of_take_head _ _ _ (by decide))
    (by intro id; simp only [String.append_assoc]; exact ne_of_take_head _ _ _ (by decide))
    (by intro t; simp only [String.append_assoc]; exact ne_of_take_head _ _ _ (by decide))
    (by decide)]
  unfold ARIAValidator.landmarkIssues ARIAValidator.landmarks
  rw [List.flatMap_cons, List.flatMap_cons, List.flatMap_cons, List.flatMap_cons,
    List.flatMap_cons, List.flatMap_nil, List.append_nil]
  rw [List.countP_append, List.countP_append, List.countP_append,
    List.countP_append]
  rw [landmarkIssuesFor_countP_main,
    landmarkIssuesFor_countP_of_ne_main d "navigation" _ (by decide),
    landmarkIssuesFor_countP_of_ne_main d "complementary" _ (by decide),
    landmarkIssuesFor_countP_of_ne_main d "banner" _ (by decide),
    landmarkIssuesFor_countP_of_ne_main d "contentinfo" _ (by decide)]
  simp [ARIAValidator.landmarkMainError, ARIAValidator.landmarkWarning,
    filter_length_pos_iff_any]

theorem landmark_warning_count_banner (d : Doc) :
    (ARIAValidator.validate d).issues.countP (fun i =>
      i.type = "warning" && i.message = "Multiple banner landmarks without unique labels") =
      if 1 < (elemsWithAttrVal d "role" "banner").length ∧
          (elemsWithAttrVal d "role" "banner").any (fun e =>
            !(jsTruthy (Elem.attr? e "aria-label")) &&
            !(jsTruthy (Elem.attr? e "aria-labelledby")))
      then 1 else 0 := by
  rw [validate_countP_msg d "warning" "Multiple banner landmarks without unique labels"
    (by intro r; simp only [String.append_assoc]; exact ne_of_take_head _ _ _ (by decide))
    (by intro pr r; simp only [String.append_assoc]; exact ne_of_take_head _ _ _ (by decide))
    (by intro r rest; simp only [String.append_assoc]; exact ne_of_take_head _ _ _ (by decide))
    (by intro prop; exact ne_of_take_head _ _ _ (by decide))
    (by intro id; simp only [String.append_assoc]; exact ne_of_take_head _ _ _ (by decide))
    (by intro t; simp only [String.append_assoc]; exact ne_of_take_head _ _ _ (by decide))
    (by decide)]
  unfold ARIAValidator.landmarkIssues ARIAValidator.landmarks
  rw [List.flatMap_cons, List.flatMap_cons, List.flatMap_cons, List.flatMap_cons,
    List.flatMap_cons, List.flatMap_nil, List.append_nil]
  rw [List.countP_append, List.countP_append, List.countP_append,
    List.countP_append]
  rw [landmarkIssuesFor_countP_main,
    landmarkIssuesFor_countP_of_ne_main d "navigation" _ (by decide),
    landmarkIssuesFor_countP_of_ne_main d "complementary" _ (by decide),
    landmarkIssuesFor_countP_of_ne_main d "banner" _ (by decide),
    landmarkIssuesFor_countP_of_ne_main d "contentinfo" _ (by decide)]
  simp [ARIAValidator.landmarkMainError, ARIAValidator.landmarkWarning,
    filter_length_pos_iff_any]

theorem landmark_warning_count_contentinfo (d : Doc) :
    (ARIAValidator.validate d).issues.countP (fun i =>
      i.type = "warning" && i.message = "Multiple contentinfo landmarks without unique labels") =
      if 1 < (elemsWithAttrVal d "role" "contentinfo").length ∧
          (elemsWithAttrVal d "role" "contentinfo").any (fun e =>
            !(jsTruthy (Elem.attr? e "aria-label")) &&
            !(jsTruthy (Elem.attr? e "aria-labelledby")))
      then 1 else 0 := by
  rw [validate_countP_msg d "warning" "Multiple contentinfo landmarks without unique labels"
    (by intro r; simp only [String.append_assoc]; exact ne_of_take_head _ _ _ (by decide))
    (by intro pr r; simp only [String.append_assoc]; exact ne_of_take_head _ _ _ (by decide))
    (by intro r rest; simp only [String.append_assoc]; exact ne_of_take_head _ _ _ (by decide))
    (by intro prop; exact ne_of_take_head _ _ _ (by decide))
    (by intro id; simp only [String.append_assoc]; exact ne_of_take_head _ _ _ (by decide))
    (by intro t; simp only [String.append_assoc]; exact ne_of_take_head _ _ _ (by decide))
    (by decide)]
  unfold ARIAValidator.landmarkIssues ARIAValidator.landmarks
  rw [List.flatMap_cons, List.flatMap_cons, List.flatMap_cons, List.flatMap_cons,
    List.flatMap_cons, List.flatMap_nil, List.append_nil]
  rw [List.countP_append, List.countP_append, List.countP_append,
    List.countP_append]
  rw [landmarkIssuesFor_countP_main,
    landmarkIssuesFor_countP_of_ne_main d "navigation" _ (by decide),
    landmarkIssuesFor_countP_of_ne_main d "complementary" _ (by decide),
    landmarkIssuesFor_countP_of_ne_main d "banner" _ (by decide),
    landmarkIssuesFor_countP_of_ne_main d "contentinfo" _ (by decide)]
  simp [ARIAValidator.landmarkMainError, ARIAValidator.landmarkWarning,
    filter_length_pos_iff_any]

/-- C7 (amended): for every document, the validator emits exactly one issue of
type `error` with message `"Multiple main landmarks found"` when more than one
element carries `role="main"` (none otherwise); and for each landmark role
navigation / complementary / banner / contentinfo, it emits exactly one
warning `"Multiple <role> landmarks without unique labels"` if and only if
more than one element carries that role and at least one of those elements
lacks both a non-empty `aria-label` and a non-empty `aria-labelledby` — an
attribute present with an empty-string value counts as missing, per the
source's JS truthiness test. -/
theorem c7_landmark_uniqueness (d : Doc) (lm : String)
    (hlm : lm ∈ ["navigation", "complementary", "banner", "contentinfo"]) :
    ((ARIAValidator.validate d).issues.countP (fun i =>
        i.type = "error" && i.message = "Multiple main landmarks found") =
      if 1 < (elemsWithAttrVal d "role" "main").length then 1 else 0)
    ∧ ((ARIAValidator.validate d).issues.countP (fun i =>
        i.type = "warning" && i.message =
          "Multiple " ++ lm ++ " landmarks without unique labels") =
      if 1 < (elemsWithAttrVal d "role" lm).length ∧
          (elemsWithAttrVal d "role" lm).any (fun e =>
            !(jsTruthy (Elem.attr? e "aria-label")) &&
            !(jsTruthy (Elem.attr? e "aria-labelledby")))
      then 1 else 0) := by
  refine ⟨landmark_main_error_count d, ?_⟩
  have hlm' : lm = "navigation" ∨ lm = "complementary" ∨ lm = "banner" ∨
      lm = "contentinfo" := by simpa using hlm
  rcases hlm' with rfl | rfl | rfl | rfl
  · exact landmark_warning_count_navigation d
  · exact landmark_warning_count_complementary d
  · exact landmark_warning_count_banner d
  · exact landmark_warning_count_contentinfo d

/-- C7 counterexample to the claim as stated: in `docTwoNavEmptyLabels` two
elements carry `role="navigation"` and every one of them carries the
`aria-label` attribute (value `""`), so no element "has neither `aria-label`
nor `aria-labelledby`" — yet the validator does emit the
`Multiple navigation landmarks without unique labels` warning, because the
source tests JS truthiness and an empty-string label counts as missing. The
claimed equivalence is therefore false at this input. -/
theorem c7_landmark_uniqueness_counterexample :
    1 < (elemsWithAttrVal docTwoNavEmptyLabels "role" "navigation").length
    ∧ (∀ e ∈ elemsWithAttrVal docTwoNavEmptyLabels "role" "navigation",
        (Elem.attr? e "aria-label").isSome)
    ∧ ¬ ((∃ i ∈ (ARIAValidator.validate docTwoNavEmptyLabels).issues,
          i.type = "warning" ∧
          i.message = "Multiple navigation landmarks without unique labels") ↔
        (∃ e ∈ elemsWithAttrVal docTwoNavEmptyLabels "role" "navigation",
          Elem.attr? e "aria-label" = none ∧
          Elem.attr? e "aria-labelledby" = none)) := by
  refine ⟨by decide, by decide, ?_⟩
  decide

theorem c7_landmark_uniqueness_witness :
    "banner" ∈ ["navigation", "complementary", "banner", "contentinfo"] ∧
    (((ARIAValidator.validate docDupLandmarks).issues.countP (fun i =>
        i.type = "error" && i.message = "Multiple main landmarks found") =
      if 1 < (elemsWithAttrVal docDupLandmarks "role" "main").length then 1 else 0)
    ∧ ((ARIAValidator.validate docDupLandmarks).issues.countP (fun i =>
        i.type = "warning" && i.message =
          "Multiple " ++ "banner" ++ " landmarks without unique labels") =
      if 1 < (elemsWithAttrVal docDupLandmarks "role" "banner").length ∧
          (elemsWithAttrVal docDupLandmarks "role" "banner").any (fun e =>
            !(jsTruthy (Elem.attr? e "aria-label")) &&
            !(jsTruthy (Elem.attr? e "aria-labelledby")))
      then 1 else 0)) :=
  ⟨by decide, c7_landmark_uniqueness docDupLandmarks "banner" (by decide)⟩
